import Mathlib

/-!
Verification of the `traci-rs` protocol engine (a Rust client for the SUMO
TraCI protocol) against its natural-language specification.

The development shallowly embeds the relevant Rust code:

* `src/error.rs`   → `TraciError`
* `src/storage.rs` → `Storage` and its `read_*` / `write_*` operations
* `src/client.rs`  → `check_result_state_static`, `check_command_get_result_static`,
  `create_command`, `read_typed_value`, `read_variables_static`,
  `read_variable_subscription`, `read_context_subscription` and the
  response-processing part of `simulation_step`.

Modelling conventions:

* Wire bytes are `Nat` (values 0–255 on the wire).
* Rust `i32` / `i16` values are `Int` carrying the type invariant as a
  hypothesis where needed; the `as` casts of the source are modelled with
  explicit `% 2 ^ w` arithmetic.
* Rust `usize` arithmetic is modelled as in release builds: additions that
  can overflow are taken `% 2 ^ 64`, and the places where the source would
  then index a slice out of range are modelled with an explicit `panic`
  outcome (`Outcome.panic`).  In debug builds the same inputs panic at the
  overflowing addition itself, so the set of panicking inputs only grows.
* `f64` / `f32` values are modelled by their IEEE-754 bit patterns (a `Nat`
  below `2 ^ 64` resp. `2 ^ 32`); `to_be_bytes` / `from_be_bytes` act on the
  bit pattern, which is exactly what the Rust code does.
* Rust `String` is modelled as its UTF-8 byte content (a `List Nat`) together
  with the validity predicate `validUtf8`; `String::from_utf8` is modelled by
  checking that predicate.
* `HashMap` is modelled as an association list with insert-replaces-key
  semantics (`mapInsert` / `mapLookup`); `Vec::with_capacity` panics on
  capacity overflow exactly as the standard library does.
* Each Rust method taking `&mut self` plus a `Result` return is modelled as a
  function returning the result together with the post-state, so that the
  partial mutations the source performs before failing are kept.
-/

namespace TraciRs

/-- Errors of the client (src/error.rs `TraciError`).  The `format!` message
strings of the source are abbreviated to fixed tags; where a claim inspects
the wire-embedded message (`SimulationError` / `NotImplemented`) the decoded
message bytes and the command byte are carried structurally. -/
inductive TraciError where
  | Connection (msg : String) : TraciError
  | Protocol (msg : String) : TraciError
  | SimulationError (command : Nat) (msg : List Nat) : TraciError
  | NotImplemented (command : Nat) (msg : List Nat) : TraciError
  | SimulationEnd : TraciError
deriving DecidableEq

/-- Result of running a fallible Rust computation: normal return, `Err`, or a
panic (index out of bounds, capacity overflow, …). -/
inductive Outcome (α : Type) where
  | ok (a : α) : Outcome α
  | error (e : TraciError) : Outcome α
  | panic (msg : String) : Outcome α
deriving DecidableEq

/-- Rust `?` on a `(result, state)` pair: continue on `ok`, propagate
`error` and `panic` with the state reached so far. -/
def andThen {α β σ : Type} (r : Outcome α × σ) (f : α → σ → Outcome β × σ) :
    Outcome β × σ :=
  match r with
  | (.ok a, s) => f a s
  | (.error e, s) => (.error e, s)
  | (.panic m, s) => (.panic m, s)

@[simp] theorem andThen_ok {α β σ : Type} (a : α) (s : σ) (f : α → σ → Outcome β × σ) :
    andThen (.ok a, s) f = f a s := rfl

@[simp] theorem andThen_error {α β σ : Type} (e : TraciError) (s : σ)
    (f : α → σ → Outcome β × σ) : andThen (.error e, s) f = (.error e, s) := rfl

@[simp] theorem andThen_panic {α β σ : Type} (m : String) (s : σ)
    (f : α → σ → Outcome β × σ) : andThen (.panic m, s) f = (.panic m, s) := rfl

-- ---------------------------------------------------------------------------
-- Big-endian byte encoding of machine integers
-- ---------------------------------------------------------------------------

/-- The `k` big-endian bytes of `n` (most significant first), as produced by
Rust `to_be_bytes`. -/
def natToBe : Nat → Nat → List Nat
  | 0, _ => []
  | k + 1, n => natToBe k (n / 256) ++ [n % 256]

/-- Value of a big-endian byte string, as computed by Rust `from_be_bytes`. -/
def beToNat (bs : List Nat) : Nat := bs.foldl (fun acc b => acc * 256 + b) 0

@[simp] theorem natToBe_length (k n : Nat) : (natToBe k n).length = k := by
  induction k generalizing n with
  | zero => rfl
  | succ k ih => simp [natToBe, ih]

theorem beToNat_append_singleton (l : List Nat) (b : Nat) :
    beToNat (l ++ [b]) = beToNat l * 256 + b := by
  simp [beToNat, List.foldl_append]

theorem beToNat_natToBe (k n : Nat) : beToNat (natToBe k n) = n % 256 ^ k := by
  induction k generalizing n with
  | zero => simp [natToBe, beToNat, Nat.mod_one]
  | succ k ih =>
    rw [natToBe, beToNat_append_singleton, ih, pow_succ]
    have hq : n / 256 % 256 ^ k < 256 ^ k := Nat.mod_lt _ (by positivity)
    have hr : n % 256 < 256 := Nat.mod_lt _ (by norm_num)
    have hdecomp :
        n = n / 256 % 256 ^ k * 256 + n % 256 + 256 ^ k * 256 * (n / 256 / 256 ^ k) := by
      conv_lhs => rw [← Nat.div_add_mod n 256, ← Nat.div_add_mod (n / 256) (256 ^ k)]
      ring
    conv_rhs => rw [hdecomp]
    rw [Nat.add_mul_mod_self_left]
    exact (Nat.mod_eq_of_lt (by omega)).symm

/-- Two's-complement read of a 32-bit big-endian value (`i32::from_be_bytes`). -/
def i32OfNat (n : Nat) : Int :=
  if n < 2 ^ 31 then (n : Int) else (n : Int) - 2 ^ 32

/-- Two's-complement 32-bit representative of an `i32` value (`to_be_bytes`). -/
def natOfI32 (v : Int) : Nat := (v % (2 ^ 32 : Int)).toNat

/-- Two's-complement read of a 16-bit big-endian value (`i16::from_be_bytes`). -/
def i16OfNat (n : Nat) : Int :=
  if n < 2 ^ 15 then (n : Int) else (n : Int) - 2 ^ 16

/-- Two's-complement 16-bit representative of an `i16` value. -/
def natOfI16 (v : Int) : Nat := (v % (2 ^ 16 : Int)).toNat

/-- The Rust cast `v as usize` for `v : i32` on a 64-bit target:
sign-extension, i.e. the unsigned 64-bit two's-complement representative. -/
def usizeOfI32 (v : Int) : Nat := (v % (2 ^ 64 : Int)).toNat

/-- The Rust cast `n as i32` for `n : usize` on a 64-bit target: truncation to
the low 32 bits reinterpreted as signed. -/
def usizeAsI32 (n : Nat) : Int := i32OfNat (n % 2 ^ 32)

theorem natOfI32_lt (v : Int) : natOfI32 v < 2 ^ 32 := by
  unfold natOfI32
  have h := Int.emod_lt_of_pos v (by norm_num : (0 : Int) < 2 ^ 32)
  have h2 := Int.emod_nonneg v (by norm_num : (2 ^ 32 : Int) ≠ 0)
  omega

theorem i32OfNat_natOfI32 (v : Int) (h1 : -(2 ^ 31) ≤ v) (h2 : v < 2 ^ 31) :
    i32OfNat (natOfI32 v) = v := by
  unfold i32OfNat natOfI32
  split <;> omega

theorem usizeOfI32_ofNat (n : Nat) (h : n < 2 ^ 31) :
    usizeOfI32 (n : Int) = n := by
  unfold usizeOfI32
  have hn : (n : Int) < 2 ^ 31 := by exact_mod_cast h
  rw [Int.emod_eq_of_lt (by positivity) (by omega)]
  simp

theorem usizeAsI32_eq (n : Nat) (h : n < 2 ^ 31) : usizeAsI32 n = (n : Int) := by
  unfold usizeAsI32 i32OfNat
  have h32 : n % 2 ^ 32 = n := Nat.mod_eq_of_lt (by omega)
  rw [h32]
  split <;> omega

-- ---------------------------------------------------------------------------
-- UTF-8 validity (the check performed by Rust `String::from_utf8`)
-- ---------------------------------------------------------------------------

/-- Continuation byte test (`0x80 ..= 0xBF`). -/
def isUtf8Cont (b : Nat) : Bool := 0x80 ≤ b && b ≤ 0xBF

/-- UTF-8 validity of a byte string, per RFC 3629 (what `String::from_utf8`
checks): ASCII, and 2-, 3- and 4-byte sequences with the usual overlong /
surrogate / range exclusions. -/
def validUtf8 : List Nat → Bool
  | [] => true
  | b :: rest =>
    if b ≤ 0x7F then validUtf8 rest
    else if 0xC2 ≤ b ∧ b ≤ 0xDF then
      match rest with
      | c1 :: r => isUtf8Cont c1 && validUtf8 r
      | [] => false
    else if b = 0xE0 then
      match rest with
      | c1 :: c2 :: r => (0xA0 ≤ c1 && c1 ≤ 0xBF) && isUtf8Cont c2 && validUtf8 r
      | _ => false
    else if (0xE1 ≤ b ∧ b ≤ 0xEC) ∨ (0xEE ≤ b ∧ b ≤ 0xEF) then
      match rest with
      | c1 :: c2 :: r => isUtf8Cont c1 && isUtf8Cont c2 && validUtf8 r
      | _ => false
    else if b = 0xED then
      match rest with
      | c1 :: c2 :: r => (0x80 ≤ c1 && c1 ≤ 0x9F) && isUtf8Cont c2 && validUtf8 r
      | _ => false
    else if b = 0xF0 then
      match rest with
      | c1 :: c2 :: c3 :: r =>
        (0x90 ≤ c1 && c1 ≤ 0xBF) && isUtf8Cont c2 && isUtf8Cont c3 && validUtf8 r
      | _ => false
    else if 0xF1 ≤ b ∧ b ≤ 0xF3 then
      match rest with
      | c1 :: c2 :: c3 :: r =>
        isUtf8Cont c1 && isUtf8Cont c2 && isUtf8Cont c3 && validUtf8 r
      | _ => false
    else if b = 0xF4 then
      match rest with
      | c1 :: c2 :: c3 :: r =>
        (0x80 ≤ c1 && c1 ≤ 0x8F) && isUtf8Cont c2 && isUtf8Cont c3 && validUtf8 r
      | _ => false
    else false

-- ---------------------------------------------------------------------------
-- Storage (src/storage.rs)
-- ---------------------------------------------------------------------------

/-- Binary serialisation buffer (src/storage.rs `Storage`): a byte vector
`buf` plus a read cursor `pos`. -/
structure Storage where
  buf : List Nat
  pos : Nat
deriving DecidableEq

namespace Storage

/-- `Storage::new` — empty buffer, cursor 0. -/
def new : Storage := ⟨[], 0⟩

/-- `Storage::from_bytes` — pre-loaded buffer, cursor 0. -/
def from_bytes (data : List Nat) : Storage := ⟨data, 0⟩

/-- `Storage::len`. -/
def len (s : Storage) : Nat := s.buf.length

/-- `Storage::reset` — clear content and cursor. -/
def reset (_s : Storage) : Storage := ⟨[], 0⟩

/-- `Storage::reset_pos`. -/
def reset_pos (s : Storage) : Storage := { s with pos := 0 }

/-- `Storage::check_read` — the bounds check `self.pos + n > self.buf.len()`.
The `usize` addition wraps (release semantics), hence the `% 2 ^ 64`. -/
def check_read (s : Storage) (n : Nat) : Except TraciError Unit :=
  if (s.pos + n) % 2 ^ 64 > s.buf.length then
    .error (.Protocol "Storage: attempt to read more bytes than the buffer holds")
  else
    .ok ()

/-- `Storage::read_raw_bytes::<N>` — bounds check, then the slice
`self.buf[self.pos .. self.pos + N]`; a slice whose wrapped end index lies
before its start panics in Rust. -/
def read_raw_bytes (s : Storage) (n : Nat) : Outcome (List Nat) × Storage :=
  match s.check_read n with
  | .error e => (.error e, s)
  | .ok _ =>
    let endIdx := (s.pos + n) % 2 ^ 64
    if endIdx < s.pos then
      (.panic "slice index range out of order", s)
    else
      (.ok ((s.buf.drop s.pos).take (endIdx - s.pos)), { s with pos := endIdx })

/-- `Storage::read_u8` — bounds check, then the index `self.buf[self.pos]`. -/
def read_u8 (s : Storage) : Outcome Nat × Storage :=
  match s.check_read 1 with
  | .error e => (.error e, s)
  | .ok _ =>
    if s.pos < s.buf.length then
      (.ok (s.buf.getD s.pos 0), { s with pos := s.pos + 1 })
    else
      (.panic "index out of bounds", s)

/-- `Storage::write_u8` — push one byte. -/
def write_u8 (s : Storage) (value : Nat) : Storage :=
  { s with buf := s.buf ++ [value] }

/-- `Storage::read_byte` — one byte reinterpreted as signed (−128..127). -/
def read_byte (s : Storage) : Outcome Int × Storage :=
  andThen s.read_u8 fun raw s1 =>
    (.ok (if raw < 128 then (raw : Int) else (raw : Int) - 256), s1)

/-- `Storage::write_byte` — range check, then `((value + 256) % 256) as u8`. -/
def write_byte (s : Storage) (value : Int) : Outcome Unit × Storage :=
  if value < -128 ∨ 127 < value then
    (.error (.Protocol "Storage write_byte: value out of range"), s)
  else
    (.ok (), s.write_u8 (((value + 256) % 256).toNat))

/-- `Storage::read_i16`. -/
def read_i16 (s : Storage) : Outcome Int × Storage :=
  andThen (s.read_raw_bytes 2) fun bs s1 => (.ok (i16OfNat (beToNat bs)), s1)

/-- `Storage::write_i16`. -/
def write_i16 (s : Storage) (value : Int) : Storage :=
  { s with buf := s.buf ++ natToBe 2 (natOfI16 value) }

/-- `Storage::read_i32`. -/
def read_i32 (s : Storage) : Outcome Int × Storage :=
  andThen (s.read_raw_bytes 4) fun bs s1 => (.ok (i32OfNat (beToNat bs)), s1)

/-- `Storage::write_i32`. -/
def write_i32 (s : Storage) (value : Int) : Storage :=
  { s with buf := s.buf ++ natToBe 4 (natOfI32 value) }

/-- `Storage::read_f32` — the 32-bit IEEE-754 bit pattern. -/
def read_f32 (s : Storage) : Outcome Nat × Storage :=
  andThen (s.read_raw_bytes 4) fun bs s1 => (.ok (beToNat bs), s1)

/-- `Storage::write_f32` — a 32-bit float given by its bit pattern. -/
def write_f32 (s : Storage) (w : Nat) : Storage :=
  { s with buf := s.buf ++ natToBe 4 w }

/-- `Storage::read_f64` — the 64-bit IEEE-754 bit pattern. -/
def read_f64 (s : Storage) : Outcome Nat × Storage :=
  andThen (s.read_raw_bytes 8) fun bs s1 => (.ok (beToNat bs), s1)

/-- `Storage::write_f64` — a 64-bit float given by its bit pattern. -/
def write_f64 (s : Storage) (w : Nat) : Storage :=
  { s with buf := s.buf ++ natToBe 8 w }

/-- `Storage::read_string` — 4-byte signed length, `len as usize`
(sign-extended), bounds check, slice, cursor advance, then UTF-8 validation.
The slice end `self.pos + len` wraps in release builds; a wrapped end before
the start panics at the slice. -/
def read_string (s : Storage) : Outcome (List Nat) × Storage :=
  andThen s.read_i32 fun lenV s1 =>
    let n := usizeOfI32 lenV
    match s1.check_read n with
    | .error e => (.error e, s1)
    | .ok _ =>
      let endIdx := (s1.pos + n) % 2 ^ 64
      if endIdx < s1.pos then
        (.panic "slice index range out of order", s1)
      else
        let bytes := (s1.buf.drop s1.pos).take (endIdx - s1.pos)
        let s2 := { s1 with pos := endIdx }
        if validUtf8 bytes then (.ok bytes, s2)
        else (.error (.Protocol "Invalid UTF-8 in string"), s2)

/-- `Storage::write_string` — `s.len() as i32` length prefix then the bytes. -/
def write_string (s : Storage) (str : List Nat) : Storage :=
  let s1 := s.write_i32 (usizeAsI32 str.length)
  { s1 with buf := s1.buf ++ str }

/-- The `for` loop of `Storage::read_string_list`. -/
def read_string_loop (s : Storage) : Nat → Outcome (List (List Nat)) × Storage
  | 0 => (.ok [], s)
  | n + 1 =>
    andThen s.read_string fun str s1 =>
      andThen (s1.read_string_loop n) fun rest s2 => (.ok (str :: rest), s2)

/-- `Storage::read_string_list` — signed count, `Vec::with_capacity(count as
usize)` (which panics on capacity overflow: 24-byte elements), then the loop
`for _ in 0..count` (empty for a negative count). -/
def read_string_list (s : Storage) : Outcome (List (List Nat)) × Storage :=
  andThen s.read_i32 fun count s1 =>
    if 24 * usizeOfI32 count > 2 ^ 63 - 1 then
      (.panic "capacity overflow", s1)
    else
      s1.read_string_loop (if count < 0 then 0 else count.toNat)

/-- The `for` loop of `Storage::write_string_list`. -/
def write_string_loop (s : Storage) : List (List Nat) → Storage
  | [] => s
  | str :: rest => (s.write_string str).write_string_loop rest

/-- `Storage::write_string_list`. -/
def write_string_list (s : Storage) (list : List (List Nat)) : Storage :=
  (s.write_i32 (usizeAsI32 list.length)).write_string_loop list

/-- The `for` loop of `Storage::read_f64_list`. -/
def read_f64_loop (s : Storage) : Nat → Outcome (List Nat) × Storage
  | 0 => (.ok [], s)
  | n + 1 =>
    andThen s.read_f64 fun w s1 =>
      andThen (s1.read_f64_loop n) fun rest s2 => (.ok (w :: rest), s2)

/-- `Storage::read_f64_list` — signed count, `Vec::with_capacity` (8-byte
elements), then the loop. -/
def read_f64_list (s : Storage) : Outcome (List Nat) × Storage :=
  andThen s.read_i32 fun count s1 =>
    if 8 * usizeOfI32 count > 2 ^ 63 - 1 then
      (.panic "capacity overflow", s1)
    else
      s1.read_f64_loop (if count < 0 then 0 else count.toNat)

/-- The `for` loop of `Storage::write_f64_list`. -/
def write_f64_loop (s : Storage) : List Nat → Storage
  | [] => s
  | w :: rest => (s.write_f64 w).write_f64_loop rest

/-- `Storage::write_f64_list`. -/
def write_f64_list (s : Storage) (list : List Nat) : Storage :=
  (s.write_i32 (usizeAsI32 list.length)).write_f64_loop list

/-- `Storage::write_packet` — append raw bytes. -/
def write_packet (s : Storage) (bytes : List Nat) : Storage :=
  { s with buf := s.buf ++ bytes }

end Storage

-- ---------------------------------------------------------------------------
-- Protocol constants (src/constants.rs)
-- ---------------------------------------------------------------------------

def CMD_SIMSTEP : Nat := 0x02

def RTYPE_OK : Nat := 0x00
def RTYPE_NOTIMPLEMENTED : Nat := 0x01
def RTYPE_ERR : Nat := 0xff

def POSITION_2D : Nat := 0x01
def POSITION_3D : Nat := 0x03

def TYPE_POLYGON : Nat := 0x06
def TYPE_UBYTE : Nat := 0x07
def TYPE_BYTE : Nat := 0x08
def TYPE_INTEGER : Nat := 0x09
def TYPE_DOUBLE : Nat := 0x0b
def TYPE_STRING : Nat := 0x0c
def TYPE_STRINGLIST : Nat := 0x0e
def TYPE_COMPOUND : Nat := 0x0f
def TYPE_DOUBLELIST : Nat := 0x10
def TYPE_COLOR : Nat := 0x11

def RESPONSE_SUBSCRIBE_INDUCTIONLOOP_VARIABLE : Nat := 0xe0
def RESPONSE_SUBSCRIBE_MULTIENTRYEXIT_VARIABLE : Nat := 0xe1
def RESPONSE_SUBSCRIBE_TL_VARIABLE : Nat := 0xe2
def RESPONSE_SUBSCRIBE_LANE_VARIABLE : Nat := 0xe3
def RESPONSE_SUBSCRIBE_VEHICLE_VARIABLE : Nat := 0xe4
def RESPONSE_SUBSCRIBE_VEHICLETYPE_VARIABLE : Nat := 0xe5
def RESPONSE_SUBSCRIBE_ROUTE_VARIABLE : Nat := 0xe6
def RESPONSE_SUBSCRIBE_POI_VARIABLE : Nat := 0xe7
def RESPONSE_SUBSCRIBE_POLYGON_VARIABLE : Nat := 0xe8
def RESPONSE_SUBSCRIBE_JUNCTION_VARIABLE : Nat := 0xe9
def RESPONSE_SUBSCRIBE_EDGE_VARIABLE : Nat := 0xea
def RESPONSE_SUBSCRIBE_SIM_VARIABLE : Nat := 0xeb
def RESPONSE_SUBSCRIBE_GUI_VARIABLE : Nat := 0xec
def RESPONSE_SUBSCRIBE_LANEAREA_VARIABLE : Nat := 0xed
def RESPONSE_SUBSCRIBE_PERSON_VARIABLE : Nat := 0xee
def RESPONSE_SUBSCRIBE_REROUTER_VARIABLE : Nat := 0x68
def RESPONSE_SUBSCRIBE_ROUTEPROBE_VARIABLE : Nat := 0x66

-- ---------------------------------------------------------------------------
-- Value model (src/types.rs)
-- ---------------------------------------------------------------------------

/-- RGBA colour (src/types.rs `TraciColor`). -/
structure TraciColor where
  r : Nat
  g : Nat
  b : Nat
  a : Nat
deriving DecidableEq

/-- A 2-D or 3-D position (src/types.rs `TraciPosition`); coordinates are
`f64` bit patterns. -/
structure TraciPosition where
  x : Nat
  y : Nat
  z : Nat
deriving DecidableEq

/-- The tagged value union (src/types.rs `TraciValue`), restricted to the
variants that the core decoding path `read_typed_value` can produce or that
appear in the wire vocabulary it dispatches on.  Floating-point payloads are
IEEE-754 bit patterns, strings are UTF-8 byte content.  The remaining
composite variants (`LogicList`, `Stage`, …) are decoded only by the
out-of-scope per-domain adapters and never by `read_typed_value`. -/
inductive TraciValue where
  | Int (v : Int) : TraciValue
  | Double (w : Nat) : TraciValue
  | String (s : List Nat) : TraciValue
  | StringList (l : List (List Nat)) : TraciValue
  | DoubleList (l : List Nat) : TraciValue
  | Pos2D (x y : Nat) : TraciValue
  | Pos3D (x y z : Nat) : TraciValue
  | Color (c : TraciColor) : TraciValue
  | Polygon (pts : List TraciPosition) : TraciValue
  | Unknown (type_id : Nat) (raw : List Nat) : TraciValue
deriving DecidableEq

/-- `HashMap` lookup, on the association-list model. -/
def mapLookup {α β : Type} [DecidableEq α] : List (α × β) → α → Option β
  | [], _ => none
  | (k, v) :: rest, k' => if k = k' then some v else mapLookup rest k'

/-- `HashMap::insert` — replaces any existing entry for the key. -/
def mapInsert {α β : Type} [DecidableEq α] (m : List (α × β)) (k : α) (v : β) :
    List (α × β) :=
  (k, v) :: m.filter (fun p => decide (p.1 ≠ k))

theorem mapLookup_mapInsert_self {α β : Type} [DecidableEq α]
    (m : List (α × β)) (k : α) (v : β) : mapLookup (mapInsert m k v) k = some v := by
  simp [mapInsert, mapLookup]

@[simp] theorem mapLookup_nil {α β : Type} [DecidableEq α] (k' : α) :
    mapLookup ([] : List (α × β)) k' = none := rfl

@[simp] theorem mapLookup_cons {α β : Type} [DecidableEq α]
    (p : α × β) (rest : List (α × β)) (k' : α) :
    mapLookup (p :: rest) k' = if p.1 = k' then some p.2 else mapLookup rest k' := rfl

theorem mapLookup_filter_ne {α β : Type} [DecidableEq α]
    (m : List (α × β)) (k k' : α) (h : k' ≠ k) :
    mapLookup (m.filter (fun p => decide (p.1 ≠ k))) k' = mapLookup m k' := by
  induction m with
  | nil => rfl
  | cons p rest ih =>
    cases hcb : decide (p.1 ≠ k) with
    | false =>
      have hp : p.1 = k := by simpa using hcb
      have hpk : ¬p.1 = k' := by rw [hp]; exact fun e => h e.symm
      simp only [List.filter_cons, hcb, Bool.false_eq_true, if_false, ih,
        mapLookup_cons, if_neg hpk]
    | true =>
      by_cases hpk : p.1 = k'
      · simp only [List.filter_cons, hcb, if_true, mapLookup_cons, if_pos hpk]
      · simp only [List.filter_cons, hcb, if_true, mapLookup_cons, if_neg hpk, ih]

theorem mapLookup_mapInsert_ne {α β : Type} [DecidableEq α]
    (m : List (α × β)) (k k' : α) (v : β) (h : k' ≠ k) :
    mapLookup (mapInsert m k v) k' = mapLookup m k' := by
  have hk : ¬k = k' := fun e => h e.symm
  rw [mapInsert, mapLookup, if_neg hk]
  exact mapLookup_filter_ne m k k' h

/-- Per-object subscription results (src/types.rs `TraciResults`). -/
abbrev TraciResults := List (Nat × TraciValue)

/-- All variable-subscription results (src/types.rs `SubscriptionResults`). -/
abbrev SubscriptionResults := List (List Nat × TraciResults)

/-- All context-subscription results
(src/types.rs `ContextSubscriptionResults`). -/
abbrev ContextSubscriptionResults := List (List Nat × SubscriptionResults)

-- ---------------------------------------------------------------------------
-- Client (src/client.rs)
-- ---------------------------------------------------------------------------

/-- Routing identifier for subscription responses (src/client.rs `DomainId`). -/
inductive DomainId where
  | Edge | Gui | InductionLoop | Junction | Lane | LaneArea
  | MultiEntryExit | Person | Poi | Polygon | Rerouter | Route
  | RouteProbe | Simulation | TrafficLight | Vehicle | VehicleType
deriving DecidableEq

/-- The domain-routing table built in `TraciClient::connect`: response-subscribe
command id → domain. -/
def domains (id : Nat) : Option DomainId :=
  if id = RESPONSE_SUBSCRIBE_EDGE_VARIABLE then some .Edge
  else if id = RESPONSE_SUBSCRIBE_GUI_VARIABLE then some .Gui
  else if id = RESPONSE_SUBSCRIBE_INDUCTIONLOOP_VARIABLE then some .InductionLoop
  else if id = RESPONSE_SUBSCRIBE_JUNCTION_VARIABLE then some .Junction
  else if id = RESPONSE_SUBSCRIBE_LANE_VARIABLE then some .Lane
  else if id = RESPONSE_SUBSCRIBE_LANEAREA_VARIABLE then some .LaneArea
  else if id = RESPONSE_SUBSCRIBE_MULTIENTRYEXIT_VARIABLE then some .MultiEntryExit
  else if id = RESPONSE_SUBSCRIBE_PERSON_VARIABLE then some .Person
  else if id = RESPONSE_SUBSCRIBE_POI_VARIABLE then some .Poi
  else if id = RESPONSE_SUBSCRIBE_POLYGON_VARIABLE then some .Polygon
  else if id = RESPONSE_SUBSCRIBE_REROUTER_VARIABLE then some .Rerouter
  else if id = RESPONSE_SUBSCRIBE_ROUTE_VARIABLE then some .Route
  else if id = RESPONSE_SUBSCRIBE_ROUTEPROBE_VARIABLE then some .RouteProbe
  else if id = RESPONSE_SUBSCRIBE_SIM_VARIABLE then some .Simulation
  else if id = RESPONSE_SUBSCRIBE_TL_VARIABLE then some .TrafficLight
  else if id = RESPONSE_SUBSCRIBE_VEHICLE_VARIABLE then some .Vehicle
  else if id = RESPONSE_SUBSCRIBE_VEHICLETYPE_VARIABLE then some .VehicleType
  else none

/-- The subscription-result caches of a connected client: for each domain the
`subscription_results` and `context_subscription_results` maps owned by that
domain's scope struct. -/
structure ClientCaches where
  subscription_results : DomainId → SubscriptionResults
  context_subscription_results : DomainId → ContextSubscriptionResults

/-- Caches of a freshly connected client (all scope maps empty). -/
def emptyCaches : ClientCaches := ⟨fun _ => [], fun _ => []⟩

/-- Overwrite one domain's variable-subscription cache. -/
def setSub (st : ClientCaches) (d : DomainId) (m : SubscriptionResults) : ClientCaches :=
  { st with subscription_results := fun d' => if d' = d then m else st.subscription_results d' }

/-- Overwrite one domain's context-subscription cache. -/
def setCtx (st : ClientCaches) (d : DomainId) (m : ContextSubscriptionResults) : ClientCaches :=
  { st with context_subscription_results :=
      fun d' => if d' = d then m else st.context_subscription_results d' }

/-- `TraciClient::read_typed_value` — decode one typed value, the type tag
having already been consumed.  An unrecognized tag yields the `Unknown`
fallback with an empty raw payload and consumes nothing. -/
def read_typed_value (in_msg : Storage) (type_id : Nat) : Outcome TraciValue × Storage :=
  if type_id = TYPE_DOUBLE then
    andThen in_msg.read_f64 fun w s => (.ok (.Double w), s)
  else if type_id = TYPE_INTEGER then
    andThen in_msg.read_i32 fun v s => (.ok (.Int v), s)
  else if type_id = TYPE_STRING then
    andThen in_msg.read_string fun str s => (.ok (.String str), s)
  else if type_id = TYPE_STRINGLIST then
    andThen in_msg.read_string_list fun l s => (.ok (.StringList l), s)
  else if type_id = TYPE_DOUBLELIST then
    andThen in_msg.read_f64_list fun l s => (.ok (.DoubleList l), s)
  else if type_id = TYPE_COLOR then
    andThen in_msg.read_u8 fun r s1 =>
    andThen s1.read_u8 fun g s2 =>
    andThen s2.read_u8 fun b s3 =>
    andThen s3.read_u8 fun a s4 =>
      (.ok (.Color ⟨r, g, b, a⟩), s4)
  else if type_id = POSITION_2D then
    andThen in_msg.read_f64 fun x s1 =>
    andThen s1.read_f64 fun y s2 =>
      (.ok (.Pos2D x y), s2)
  else if type_id = POSITION_3D then
    andThen in_msg.read_f64 fun x s1 =>
    andThen s1.read_f64 fun y s2 =>
    andThen s2.read_f64 fun z s3 =>
      (.ok (.Pos3D x y z), s3)
  else if type_id = TYPE_UBYTE then
    andThen in_msg.read_u8 fun b s => (.ok (.Int (b : Int)), s)
  else
    (.ok (.Unknown type_id []), in_msg)

/-- `TraciClient::check_result_state_static` — validate a result-status
response.  The `acknowledgement` out-parameter of the source only formats a
success message and is dropped here. -/
def check_result_state_static (in_msg : Storage) (command : Nat)
    (ignore_command_id : Bool) : Outcome Unit × Storage :=
  andThen in_msg.read_u8 fun _cmd_len s1 =>
  andThen s1.read_u8 fun cmd_id s2 =>
  if ¬ignore_command_id ∧ cmd_id ≠ command then
    (.error (.Protocol "Received status for unexpected command"), s2)
  else
    andThen s2.read_u8 fun result_type s3 =>
    andThen s3.read_string fun msg s4 =>
    if result_type = RTYPE_OK then (.ok (), s4)
    else if result_type = RTYPE_NOTIMPLEMENTED then
      (.error (.NotImplemented command msg), s4)
    else if result_type = RTYPE_ERR then
      (.error (.SimulationError command msg), s4)
    else
      (.error (.Protocol "Unknown result type"), s4)

/-- `TraciClient::check_command_get_result_static` — validate and advance past
a GET-variable response header, returning the response command id. -/
def check_command_get_result_static (in_msg : Storage) (command : Nat)
    (expected_type : Option Nat) (ignore_command_id : Bool) : Outcome Nat × Storage :=
  andThen in_msg.read_u8 fun length0 s1 =>
  andThen
    (if length0 = 0 then
      andThen s1.read_i32 fun v s => (.ok (usizeOfI32 v), s)
    else
      (.ok length0, s1)) fun _length s2 =>
  andThen s2.read_u8 fun cmd_id s3 =>
  if ¬ignore_command_id ∧ cmd_id ≠ (command + 0x10) % 256 then
    (.error (.Protocol "Received response for unexpected command"), s3)
  else
    match expected_type with
    | none => (.ok cmd_id, s3)
    | some exp_type =>
      andThen s3.read_u8 fun _var_id s4 =>
      andThen s4.read_string fun _obj_id s5 =>
      andThen s5.read_u8 fun value_type s6 =>
      if value_type ≠ exp_type then
        (.error (.Protocol "Expected type mismatch"), s6)
      else
        (.ok cmd_id, s6)

/-- `TraciClient::create_command` — build a GET/SET command in the (reset)
output buffer, choosing the 1-byte short length form when the command fits in
255 bytes and the `0x00` + 4-byte extended form otherwise. -/
def create_command (cmd_id var_id : Nat) (obj_id : List Nat)
    (add : Option (List Nat)) : Storage :=
  let output := Storage.new
  let extra := match add with
    | none => 0
    | some s => s.length
  let length := 1 + 1 + 1 + 4 + obj_id.length + extra
  let output :=
    if length ≤ 255 then output.write_u8 (length % 256)
    else (output.write_u8 0).write_i32 (usizeAsI32 (length + 4))
  let output := (output.write_u8 cmd_id).write_u8 var_id
  let output := output.write_string obj_id
  match add with
  | none => output
  | some s => output.write_packet s

/-- The loop body of `TraciClient::read_variables_static`: read `n` more
`(variable id, status, type tag, value)` tuples, accumulating into `results`. -/
def read_variables_loop (in_msg : Storage) (results : TraciResults) :
    Nat → Outcome TraciResults × Storage
  | 0 => (.ok results, in_msg)
  | n + 1 =>
    andThen in_msg.read_u8 fun var_id s1 =>
    andThen s1.read_u8 fun status s2 =>
    andThen s2.read_u8 fun type_id s3 =>
    if status ≠ RTYPE_OK then
      (.error (.Protocol "Subscription variable returned non-OK status"), s3)
    else
      andThen (read_typed_value s3 type_id) fun value s4 =>
        read_variables_loop s4 (mapInsert results var_id value) n

/-- `TraciClient::read_variables_static`. -/
def read_variables_static (in_msg : Storage) (var_count : Nat) :
    Outcome TraciResults × Storage :=
  read_variables_loop in_msg [] var_count

/-- Rust `?` inside a client method: a failing `Storage` read returns early,
leaving the caches `st` as they are at that point. -/
def andThenSt {α : Type} (st : ClientCaches) (r : Outcome α × Storage)
    (f : α → Storage → Outcome Unit × ClientCaches × Storage) :
    Outcome Unit × ClientCaches × Storage :=
  match r with
  | (.ok a, s) => f a s
  | (.error e, s) => (.error e, st, s)
  | (.panic m, s) => (.panic m, st, s)

@[simp] theorem andThenSt_ok {α : Type} (st : ClientCaches) (a : α) (s : Storage)
    (f : α → Storage → Outcome Unit × ClientCaches × Storage) :
    andThenSt st (.ok a, s) f = f a s := rfl

@[simp] theorem andThenSt_error {α : Type} (st : ClientCaches) (e : TraciError) (s : Storage)
    (f : α → Storage → Outcome Unit × ClientCaches × Storage) :
    andThenSt st (.error e, s) f = (.error e, st, s) := rfl

@[simp] theorem andThenSt_panic {α : Type} (st : ClientCaches) (m : String) (s : Storage)
    (f : α → Storage → Outcome Unit × ClientCaches × Storage) :
    andThenSt st (.panic m, s) f = (.panic m, st, s) := rfl

/-- `TraciClient::read_variable_subscription` — parse one variable-subscription
response body and, when the routing table maps `cmd_id`, insert the decoded
map into that domain's `subscription_results`. -/
def read_variable_subscription (cmd_id : Nat) (st : ClientCaches) (in_msg : Storage) :
    Outcome Unit × ClientCaches × Storage :=
  andThenSt st in_msg.read_string fun object_id s1 =>
  andThenSt st s1.read_u8 fun var_count s2 =>
  andThenSt st (read_variables_static s2 var_count) fun results s3 =>
  match domains cmd_id with
  | some domain =>
    (.ok (), setSub st domain
      (mapInsert (st.subscription_results domain) object_id results), s3)
  | none => (.ok (), st, s3)

/-- The object loop of `TraciClient::read_context_subscription`. -/
def read_ctx_loop (in_msg : Storage) (var_count : Nat) (acc : SubscriptionResults) :
    Nat → Outcome SubscriptionResults × Storage
  | 0 => (.ok acc, in_msg)
  | n + 1 =>
    andThen in_msg.read_string fun object_id s1 =>
    andThen (read_variables_static s1 var_count) fun results s2 =>
      read_ctx_loop s2 var_count (mapInsert acc object_id results) n

/-- `TraciClient::read_context_subscription` — parse one context-subscription
response body (`cmd_id` is already the offset routing id) and, when the
routing table maps it, insert under the anchor id into that domain's
`context_subscription_results`. -/
def read_context_subscription (cmd_id : Nat) (st : ClientCaches) (in_msg : Storage) :
    Outcome Unit × ClientCaches × Storage :=
  andThenSt st in_msg.read_string fun context_id s1 =>
  andThenSt st s1.read_u8 fun _context_domain s2 =>
  andThenSt st s2.read_u8 fun var_count s3 =>
  andThenSt st s3.read_i32 fun num_objects s4 =>
  andThenSt st
    (read_ctx_loop s4 var_count [] (if num_objects < 0 then 0 else num_objects.toNat))
    fun ctx_results s5 =>
  match domains cmd_id with
  | some domain =>
    (.ok (), setCtx st domain
      (mapInsert (st.context_subscription_results domain) context_id ctx_results), s5)
  | none => (.ok (), st, s5)

/-- One iteration of the subscription loop in `TraciClient::simulation_step`:
read the per-response command id (header validation with `ignore_command_id`),
then dispatch on the contiguous variable-subscription-response range, applying
the fixed `0x50` offset (`wrapping_add`) on the context path. -/
def processOneSub (st : ClientCaches) (in_msg : Storage) :
    Outcome Unit × ClientCaches × Storage :=
  andThenSt st (check_command_get_result_static in_msg 0 none true) fun cmd_id s1 =>
  if RESPONSE_SUBSCRIBE_INDUCTIONLOOP_VARIABLE ≤ cmd_id ∧
      cmd_id ≤ RESPONSE_SUBSCRIBE_PERSON_VARIABLE then
    read_variable_subscription cmd_id st s1
  else
    read_context_subscription ((cmd_id + 0x50) % 256) st s1

/-- The subscription loop of `TraciClient::simulation_step`. -/
def stepLoop : Nat → ClientCaches → Storage → Outcome Unit × ClientCaches × Storage
  | 0, st, msg => (.ok (), st, msg)
  | n + 1, st, msg =>
    match processOneSub st msg with
    | (.ok _, st1, msg1) => stepLoop n st1 msg1
    | (.error e, st1, msg1) => (.error e, st1, msg1)
    | (.panic m, st1, msg1) => (.panic m, st1, msg1)

/-- The cache-clearing block of `TraciClient::simulation_step`: the 17
`subscription_results.clear()` calls.  The source clears no
`context_subscription_results` map. -/
def clearSubscriptionCaches (st : ClientCaches) : ClientCaches :=
  { st with subscription_results := fun _ => [] }

/-- The response-processing part of `TraciClient::simulation_step`: validate
the step result status, clear the variable-subscription caches, read the
subscription count, then dispatch each pending subscription response. -/
def simulation_step_process (st : ClientCaches) (in_msg : Storage) :
    Outcome Unit × ClientCaches × Storage :=
  andThenSt st (check_result_state_static in_msg CMD_SIMSTEP false) fun _ s1 =>
  let st1 := clearSubscriptionCaches st
  andThenSt st1 s1.read_i32 fun num_subs s2 =>
  stepLoop (if num_subs < 0 then 0 else num_subs.toNat) st1 s2

-- ---------------------------------------------------------------------------
-- Wire images of the write operations
-- ---------------------------------------------------------------------------

/-- The bytes `Storage::write_string` appends for a given string. -/
def encString (str : List Nat) : List Nat := (Storage.new.write_string str).buf

/-- The bytes `Storage::write_string_list` appends for a given list. -/
def encStringList (l : List (List Nat)) : List Nat := (Storage.new.write_string_list l).buf

/-- The bytes `Storage::write_f64_list` appends for a given list. -/
def encF64List (l : List Nat) : List Nat := (Storage.new.write_f64_list l).buf

theorem natOfI32_ofNat (n : Nat) (h : n < 2 ^ 32) : natOfI32 (n : Int) = n := by
  unfold natOfI32
  have hn : (n : Int) < 2 ^ 32 := by exact_mod_cast h
  rw [Int.emod_eq_of_lt (by positivity) (by omega)]
  simp

theorem encString_eq (str : List Nat) (h : str.length < 2 ^ 31) :
    encString str = natToBe 4 str.length ++ str := by
  unfold encString Storage.write_string Storage.write_i32 Storage.new
  simp only [usizeAsI32_eq str.length h, natOfI32_ofNat str.length (by omega)]
  simp

-- ---------------------------------------------------------------------------
-- Reading back at an arbitrary cursor position
-- ---------------------------------------------------------------------------

theorem getD_append_length (pre post : List Nat) (b d : Nat) :
    (pre ++ b :: post).getD pre.length d = b := by
  induction pre with
  | nil => rfl
  | cons a pre ih => simpa using ih

theorem read_u8_at (pre post : List Nat) (b : Nat) (hfit : pre.length + 1 < 2 ^ 64) :
    Storage.read_u8 ⟨pre ++ b :: post, pre.length⟩ =
      (.ok b, ⟨pre ++ b :: post, pre.length + 1⟩) := by
  have hlen : (pre ++ b :: post).length = pre.length + 1 + post.length := by
    simp only [List.length_append, List.length_cons]
    omega
  have h1 : ¬((pre.length + 1) % 2 ^ 64 > (pre ++ b :: post).length) := by
    rw [Nat.mod_eq_of_lt hfit]
    omega
  have h2 : pre.length < (pre ++ b :: post).length := by omega
  simp only [Storage.read_u8, Storage.check_read, if_neg h1, if_pos h2, getD_append_length]

theorem read_raw_bytes_at (pre bs post : List Nat) (n : Nat) (hn : bs.length = n)
    (hfit : pre.length + n < 2 ^ 64) :
    Storage.read_raw_bytes ⟨pre ++ bs ++ post, pre.length⟩ n =
      (.ok bs, ⟨pre ++ bs ++ post, pre.length + n⟩) := by
  have hlen : (pre ++ bs ++ post).length = pre.length + n + post.length := by
    simp only [List.length_append]
    omega
  have h1 : ¬(pre.length + n > (pre ++ bs ++ post).length) := by omega
  have h2 : ¬(pre.length + n < pre.length) := by omega
  have h3 : ((pre ++ bs ++ post).drop pre.length).take (pre.length + n - pre.length) = bs := by
    rw [List.append_assoc, List.drop_left]
    have hsub : pre.length + n - pre.length = n := by omega
    rw [hsub, ← hn, List.take_left]
  simp only [Storage.read_raw_bytes, Storage.check_read, Nat.mod_eq_of_lt hfit,
    if_neg h1, if_neg h2, h3]

theorem read_i32_at (pre post : List Nat) (v : Int) (h1 : -(2 ^ 31) ≤ v) (h2 : v < 2 ^ 31)
    (hfit : pre.length + 4 < 2 ^ 64) :
    Storage.read_i32 ⟨pre ++ natToBe 4 (natOfI32 v) ++ post, pre.length⟩ =
      (.ok v, ⟨pre ++ natToBe 4 (natOfI32 v) ++ post, pre.length + 4⟩) := by
  rw [Storage.read_i32, read_raw_bytes_at pre _ post 4 (natToBe_length 4 _) hfit, andThen_ok]
  rw [beToNat_natToBe]
  rw [Nat.mod_eq_of_lt (by have := natOfI32_lt v; norm_num; omega)]
  rw [i32OfNat_natOfI32 v h1 h2]

theorem read_i32_at_nat (pre post : List Nat) (n : Nat) (h : n < 2 ^ 31)
    (hfit : pre.length + 4 < 2 ^ 64) :
    Storage.read_i32 ⟨pre ++ natToBe 4 n ++ post, pre.length⟩ =
      (.ok (n : Int), ⟨pre ++ natToBe 4 n ++ post, pre.length + 4⟩) := by
  have hv : natOfI32 (n : Int) = n := natOfI32_ofNat n (by omega)
  have h0 := read_i32_at pre post (n : Int) (by omega) (by exact_mod_cast h) hfit
  rw [hv] at h0
  exact h0

theorem read_f64_at (pre post : List Nat) (w : Nat) (hw : w < 2 ^ 64)
    (hfit : pre.length + 8 < 2 ^ 64) :
    Storage.read_f64 ⟨pre ++ natToBe 8 w ++ post, pre.length⟩ =
      (.ok w, ⟨pre ++ natToBe 8 w ++ post, pre.length + 8⟩) := by
  rw [Storage.read_f64, read_raw_bytes_at pre _ post 8 (natToBe_length 8 _) hfit, andThen_ok]
  rw [beToNat_natToBe, Nat.mod_eq_of_lt (by norm_num; omega)]

theorem read_string_at (pre str post : List Nat) (hv : validUtf8 str = true)
    (hl : str.length < 2 ^ 31) (hfit : pre.length + 4 + str.length < 2 ^ 64) :
    Storage.read_string ⟨pre ++ encString str ++ post, pre.length⟩ =
      (.ok str, ⟨pre ++ encString str ++ post, pre.length + 4 + str.length⟩) := by
  have henc := encString_eq str hl
  have hshape : pre ++ encString str ++ post =
      pre ++ natToBe 4 str.length ++ (str ++ post) := by
    rw [henc]
    simp [List.append_assoc]
  rw [Storage.read_string, hshape]
  rw [read_i32_at_nat pre (str ++ post) str.length hl (by omega), andThen_ok]
  rw [usizeOfI32_ofNat str.length hl]
  have hlen4 : (pre ++ natToBe 4 str.length).length = pre.length + 4 := by
    simp [List.length_append]
  have hlen : (pre ++ natToBe 4 str.length ++ (str ++ post)).length =
      pre.length + 4 + str.length + post.length := by
    simp only [List.length_append, natToBe_length]
    omega
  have h1 : ¬(pre.length + 4 + str.length >
      (pre ++ natToBe 4 str.length ++ (str ++ post)).length) := by omega
  have h2 : ¬(pre.length + 4 + str.length < pre.length + 4) := by omega
  have h3 : (((pre ++ natToBe 4 str.length ++ (str ++ post)).drop (pre.length + 4)).take
      (pre.length + 4 + str.length - (pre.length + 4))) = str := by
    rw [← hlen4, List.drop_left]
    have hsub : pre.length + 4 + str.length - (pre.length + 4) = str.length := by omega
    rw [hlen4, hsub, List.take_left]
  simp only [Storage.check_read, Nat.mod_eq_of_lt hfit, if_neg h1, if_neg h2, h3, hv, if_true]

theorem read_u8_at' (pre post : List Nat) (b : Nat) (B : List Nat) (p : Nat)
    (hB : B = pre ++ b :: post) (hp : p = pre.length) (hfit : pre.length + 1 < 2 ^ 64) :
    Storage.read_u8 ⟨B, p⟩ = (.ok b, ⟨B, p + 1⟩) := by
  subst hB hp
  exact read_u8_at pre post b hfit

theorem read_i32_at_nat' (pre post : List Nat) (n : Nat) (B : List Nat) (p : Nat)
    (hB : B = pre ++ natToBe 4 n ++ post) (hp : p = pre.length) (h : n < 2 ^ 31)
    (hfit : pre.length + 4 < 2 ^ 64) :
    Storage.read_i32 ⟨B, p⟩ = (.ok (n : Int), ⟨B, p + 4⟩) := by
  subst hB hp
  exact read_i32_at_nat pre post n h hfit

theorem read_f64_at' (pre post : List Nat) (w : Nat) (B : List Nat) (p : Nat)
    (hB : B = pre ++ natToBe 8 w ++ post) (hp : p = pre.length) (hw : w < 2 ^ 64)
    (hfit : pre.length + 8 < 2 ^ 64) :
    Storage.read_f64 ⟨B, p⟩ = (.ok w, ⟨B, p + 8⟩) := by
  subst hB hp
  exact read_f64_at pre post w hw hfit

theorem read_string_at' (pre str post : List Nat) (B : List Nat) (p : Nat)
    (hB : B = pre ++ encString str ++ post) (hp : p = pre.length)
    (hv : validUtf8 str = true) (hl : str.length < 2 ^ 31)
    (hfit : pre.length + 4 + str.length < 2 ^ 64) :
    Storage.read_string ⟨B, p⟩ = (.ok str, ⟨B, p + 4 + str.length⟩) := by
  subst hB hp
  exact read_string_at pre str post hv hl hfit

-- ---------------------------------------------------------------------------
-- List encodings
-- ---------------------------------------------------------------------------

/-- Concatenated string encodings (the loop body of `write_string_list`). -/
def encStrings : List (List Nat) → List Nat
  | [] => []
  | s :: rest => encString s ++ encStrings rest

/-- Concatenated f64 encodings (the loop body of `write_f64_list`). -/
def encF64s : List Nat → List Nat
  | [] => []
  | w :: rest => natToBe 8 w ++ encF64s rest

theorem write_string_buf (st : Storage) (str : List Nat) :
    (st.write_string str).buf = st.buf ++ encString str := by
  simp [Storage.write_string, Storage.write_i32, encString, Storage.new, List.append_assoc]

theorem write_string_loop_buf (l : List (List Nat)) (st : Storage) :
    (st.write_string_loop l).buf = st.buf ++ encStrings l := by
  induction l generalizing st with
  | nil => simp [Storage.write_string_loop, encStrings]
  | cons s rest ih =>
    simp [Storage.write_string_loop, encStrings, ih, write_string_buf, List.append_assoc]

theorem write_string_loop_pos (l : List (List Nat)) (st : Storage) :
    (st.write_string_loop l).pos = st.pos := by
  induction l generalizing st with
  | nil => rfl
  | cons s rest ih =>
    simp [Storage.write_string_loop, ih, Storage.write_string, Storage.write_i32]

theorem encStringList_eq (l : List (List Nat)) (h : l.length < 2 ^ 31) :
    encStringList l = natToBe 4 l.length ++ encStrings l := by
  unfold encStringList Storage.write_string_list
  rw [write_string_loop_buf]
  simp [Storage.write_i32, Storage.new, usizeAsI32_eq l.length h,
    natOfI32_ofNat l.length (by omega)]

theorem encString_length (str : List Nat) (h : str.length < 2 ^ 31) :
    (encString str).length = 4 + str.length := by
  rw [encString_eq str h]
  simp

theorem write_f64_loop_buf (l : List Nat) (st : Storage) :
    (st.write_f64_loop l).buf = st.buf ++ encF64s l := by
  induction l generalizing st with
  | nil => simp [Storage.write_f64_loop, encF64s]
  | cons w rest ih =>
    simp [Storage.write_f64_loop, encF64s, ih, Storage.write_f64, List.append_assoc]

theorem encF64List_eq (l : List Nat) (h : l.length < 2 ^ 31) :
    encF64List l = natToBe 4 l.length ++ encF64s l := by
  unfold encF64List Storage.write_f64_list
  rw [write_f64_loop_buf]
  simp [Storage.write_i32, Storage.new, usizeAsI32_eq l.length h,
    natOfI32_ofNat l.length (by omega)]

theorem encF64s_length (l : List Nat) : (encF64s l).length = 8 * l.length := by
  induction l with
  | nil => simp [encF64s]
  | cons w rest ih => simp [encF64s, ih]; ring

theorem read_string_loop_at (l : List (List Nat)) (pre post : List Nat)
    (hwf : ∀ s ∈ l, validUtf8 s = true ∧ s.length < 2 ^ 31)
    (hfit : pre.length + (encStrings l).length < 2 ^ 64) :
    Storage.read_string_loop ⟨pre ++ encStrings l ++ post, pre.length⟩ l.length =
      (.ok l, ⟨pre ++ encStrings l ++ post, pre.length + (encStrings l).length⟩) := by
  induction l generalizing pre with
  | nil => simp [Storage.read_string_loop, encStrings]
  | cons s rest ih =>
    obtain ⟨hv, hl⟩ := hwf s (by simp)
    have hlen_s : (encString s).length = 4 + s.length := encString_length s hl
    have hpre : (pre ++ encString s).length = pre.length + 4 + s.length := by
      simp only [List.length_append, hlen_s]
      omega
    have hfit' : (pre ++ encString s).length + (encStrings rest).length < 2 ^ 64 := by
      rw [hpre]
      simp only [encStrings, List.length_append, hlen_s] at hfit
      omega
    simp only [List.length_cons, Storage.read_string_loop]
    rw [read_string_at' pre s (encStrings rest ++ post) _ _
      (by simp [encStrings, List.append_assoc]) rfl hv hl (by omega), andThen_ok]
    rw [show Storage.mk (pre ++ encStrings (s :: rest) ++ post) (pre.length + 4 + s.length) =
        Storage.mk ((pre ++ encString s) ++ encStrings rest ++ post)
          ((pre ++ encString s).length) by
      rw [hpre]
      simp [encStrings, List.append_assoc]]
    rw [ih (pre ++ encString s) (fun t ht => hwf t (by simp [ht])) hfit', andThen_ok]
    have hflat : (pre ++ encString s) ++ encStrings rest ++ post =
        pre ++ encStrings (s :: rest) ++ post := by
      simp [encStrings, List.append_assoc]
    have hposeq : (pre ++ encString s).length + (encStrings rest).length =
        pre.length + (encStrings (s :: rest)).length := by
      rw [hpre]
      simp only [encStrings, List.length_append, hlen_s]
      omega
    rw [hflat, hposeq]

theorem read_f64_loop_at (l : List Nat) (pre post : List Nat)
    (hw : ∀ w ∈ l, w < 2 ^ 64)
    (hfit : pre.length + (encF64s l).length < 2 ^ 64) :
    Storage.read_f64_loop ⟨pre ++ encF64s l ++ post, pre.length⟩ l.length =
      (.ok l, ⟨pre ++ encF64s l ++ post, pre.length + (encF64s l).length⟩) := by
  induction l generalizing pre with
  | nil => simp [Storage.read_f64_loop, encF64s]
  | cons w rest ih =>
    have hw0 : w < 2 ^ 64 := hw w (by simp)
    have hpre : (pre ++ natToBe 8 w).length = pre.length + 8 := by
      simp [List.length_append]
    have hfit' : (pre ++ natToBe 8 w).length + (encF64s rest).length < 2 ^ 64 := by
      rw [hpre]
      simp only [encF64s, List.length_append, natToBe_length] at hfit
      omega
    simp only [List.length_cons, Storage.read_f64_loop]
    rw [read_f64_at' pre (encF64s rest ++ post) w _ _
      (by simp [encF64s, List.append_assoc]) rfl hw0 (by omega), andThen_ok]
    rw [show Storage.mk (pre ++ encF64s (w :: rest) ++ post) (pre.length + 8) =
        Storage.mk ((pre ++ natToBe 8 w) ++ encF64s rest ++ post)
          ((pre ++ natToBe 8 w).length) by
      rw [hpre]
      simp [encF64s, List.append_assoc]]
    rw [ih (pre ++ natToBe 8 w) (fun t ht => hw t (by simp [ht])) hfit', andThen_ok]
    have hflat : (pre ++ natToBe 8 w) ++ encF64s rest ++ post =
        pre ++ encF64s (w :: rest) ++ post := by
      simp [encF64s, List.append_assoc]
    have hposeq : (pre ++ natToBe 8 w).length + (encF64s rest).length =
        pre.length + (encF64s (w :: rest)).length := by
      rw [hpre]
      simp only [encF64s, List.length_append, natToBe_length]
      omega
    rw [hflat, hposeq]

theorem storage_eq (s t : Storage) (h1 : s.buf = t.buf) (h2 : s.pos = t.pos) : s = t := by
  cases s
  cases t
  simp_all

theorem read_i32_at_int' (pre post : List Nat) (v : Int) (B : List Nat) (p : Nat)
    (hB : B = pre ++ natToBe 4 (natOfI32 v) ++ post) (hp : p = pre.length)
    (h1 : -(2 ^ 31) ≤ v) (h2 : v < 2 ^ 31) (hfit : pre.length + 4 < 2 ^ 64) :
    Storage.read_i32 ⟨B, p⟩ = (.ok v, ⟨B, p + 4⟩) := by
  subst hB hp
  exact read_i32_at pre post v h1 h2 hfit

theorem read_string_loop_at' (l : List (List Nat)) (pre post B : List Nat) (p n : Nat)
    (hB : B = pre ++ encStrings l ++ post) (hp : p = pre.length) (hn : n = l.length)
    (hwf : ∀ s ∈ l, validUtf8 s = true ∧ s.length < 2 ^ 31)
    (hfit : pre.length + (encStrings l).length < 2 ^ 64) :
    Storage.read_string_loop ⟨B, p⟩ n = (.ok l, ⟨B, p + (encStrings l).length⟩) := by
  subst hB hp hn
  exact read_string_loop_at l pre post hwf hfit

theorem read_f64_loop_at' (l : List Nat) (pre post B : List Nat) (p n : Nat)
    (hB : B = pre ++ encF64s l ++ post) (hp : p = pre.length) (hn : n = l.length)
    (hw : ∀ w ∈ l, w < 2 ^ 64)
    (hfit : pre.length + (encF64s l).length < 2 ^ 64) :
    Storage.read_f64_loop ⟨B, p⟩ n = (.ok l, ⟨B, p + (encF64s l).length⟩) := by
  subst hB hp hn
  exact read_f64_loop_at l pre post hw hfit

theorem write_string_list_new (l : List (List Nat)) :
    Storage.new.write_string_list l = ⟨encStringList l, 0⟩ := by
  apply storage_eq
  · rfl
  · unfold Storage.write_string_list
    rw [write_string_loop_pos]
    rfl

theorem write_f64_loop_pos (l : List Nat) (st : Storage) :
    (st.write_f64_loop l).pos = st.pos := by
  induction l generalizing st with
  | nil => rfl
  | cons w rest ih => simp [Storage.write_f64_loop, ih, Storage.write_f64]

theorem write_f64_list_new (l : List Nat) :
    Storage.new.write_f64_list l = ⟨encF64List l, 0⟩ := by
  apply storage_eq
  · rfl
  · unfold Storage.write_f64_list
    rw [write_f64_loop_pos]
    rfl

theorem read_write_string_list (l : List (List Nat))
    (hwf : ∀ s ∈ l, validUtf8 s = true ∧ s.length < 2 ^ 31)
    (hcnt : l.length < 2 ^ 31)
    (hfit : 4 + (encStrings l).length < 2 ^ 64) :
    (Storage.new.write_string_list l).read_string_list =
      (.ok l, ⟨encStringList l, 4 + (encStrings l).length⟩) := by
  rw [write_string_list_new, Storage.read_string_list]
  rw [read_i32_at_nat' [] (encStrings l) l.length _ 0
    (by rw [encStringList_eq l hcnt]; simp) (by simp) hcnt (by norm_num), andThen_ok]
  rw [usizeOfI32_ofNat l.length hcnt]
  rw [if_neg (by omega)]
  rw [if_neg (by omega)]
  rw [Int.toNat_natCast]
  rw [read_string_loop_at' l (natToBe 4 l.length) [] _ _ _
    (by rw [encStringList_eq l hcnt]; simp) (by simp) rfl hwf
    (by simp only [natToBe_length]; omega)]

theorem read_write_f64_list (l : List Nat)
    (hw : ∀ w ∈ l, w < 2 ^ 64)
    (hcnt : l.length < 2 ^ 31) :
    (Storage.new.write_f64_list l).read_f64_list =
      (.ok l, ⟨encF64List l, 4 + (encF64s l).length⟩) := by
  have hfit : 4 + (encF64s l).length < 2 ^ 64 := by
    rw [encF64s_length]
    omega
  rw [write_f64_list_new, Storage.read_f64_list]
  rw [read_i32_at_nat' [] (encF64s l) l.length _ 0
    (by rw [encF64List_eq l hcnt]; simp) (by simp) hcnt (by norm_num), andThen_ok]
  rw [usizeOfI32_ofNat l.length hcnt]
  rw [if_neg (by omega)]
  rw [if_neg (by omega)]
  rw [Int.toNat_natCast]
  rw [read_f64_loop_at' l (natToBe 4 l.length) [] _ _ _
    (by rw [encF64List_eq l hcnt]; simp) (by simp) rfl hw
    (by simp only [natToBe_length]; omega)]

-- ---------------------------------------------------------------------------
-- Encoding of typed values (per-variant wire layout, built from the writes)
-- ---------------------------------------------------------------------------

/-- The wire encoding of each `TraciValue` variant that `read_typed_value`
decodes: its type tag together with the payload bytes the corresponding
`Storage::write_*` operations produce.  Variants with no core encoder
(`Polygon`, `Unknown`, …) map to `none`. -/
def encodeTypedValue : TraciValue → Option (Nat × List Nat)
  | .Int v => some (TYPE_INTEGER, (Storage.new.write_i32 v).buf)
  | .Double w => some (TYPE_DOUBLE, (Storage.new.write_f64 w).buf)
  | .String s => some (TYPE_STRING, (Storage.new.write_string s).buf)
  | .StringList l => some (TYPE_STRINGLIST, (Storage.new.write_string_list l).buf)
  | .DoubleList l => some (TYPE_DOUBLELIST, (Storage.new.write_f64_list l).buf)
  | .Color c =>
    some (TYPE_COLOR,
      ((((Storage.new.write_u8 c.r).write_u8 c.g).write_u8 c.b).write_u8 c.a).buf)
  | .Pos2D x y => some (POSITION_2D, ((Storage.new.write_f64 x).write_f64 y).buf)
  | .Pos3D x y z =>
    some (POSITION_3D, (((Storage.new.write_f64 x).write_f64 y).write_f64 z).buf)
  | _ => none

/-- Type invariants of the Rust representation of each variant: `i32` range,
`f64` bit-pattern width, UTF-8 validity and `i32`-expressible lengths, byte
range of colour channels, and (for string lists) an encoding that fits the
address space. -/
def wfValue : TraciValue → Prop
  | .Int v => -(2 ^ 31) ≤ v ∧ v < 2 ^ 31
  | .Double w => w < 2 ^ 64
  | .String s => validUtf8 s = true ∧ s.length < 2 ^ 31
  | .StringList l =>
    (∀ s ∈ l, validUtf8 s = true ∧ s.length < 2 ^ 31) ∧ l.length < 2 ^ 31 ∧
      4 + (encStrings l).length < 2 ^ 64
  | .DoubleList l => (∀ w ∈ l, w < 2 ^ 64) ∧ l.length < 2 ^ 31
  | .Color c => c.r < 256 ∧ c.g < 256 ∧ c.b < 256 ∧ c.a < 256
  | .Pos2D x y => x < 2 ^ 64 ∧ y < 2 ^ 64
  | .Pos3D x y z => x < 2 ^ 64 ∧ y < 2 ^ 64 ∧ z < 2 ^ 64
  | _ => True

-- ---------------------------------------------------------------------------
-- Branch lemmas for `read_typed_value`
-- ---------------------------------------------------------------------------

theorem rtv_double (s : Storage) :
    read_typed_value s TYPE_DOUBLE = andThen s.read_f64 fun w s1 => (.ok (.Double w), s1) := by
  unfold read_typed_value
  norm_num [TYPE_DOUBLE]

theorem rtv_int (s : Storage) :
    read_typed_value s TYPE_INTEGER = andThen s.read_i32 fun v s1 => (.ok (.Int v), s1) := by
  unfold read_typed_value
  norm_num [TYPE_DOUBLE, TYPE_INTEGER]

theorem rtv_string (s : Storage) :
    read_typed_value s TYPE_STRING =
      andThen s.read_string fun str s1 => (.ok (.String str), s1) := by
  unfold read_typed_value
  norm_num [TYPE_DOUBLE, TYPE_INTEGER, TYPE_STRING]

theorem rtv_string_list (s : Storage) :
    read_typed_value s TYPE_STRINGLIST =
      andThen s.read_string_list fun l s1 => (.ok (.StringList l), s1) := by
  unfold read_typed_value
  norm_num [TYPE_DOUBLE, TYPE_INTEGER, TYPE_STRING, TYPE_STRINGLIST]

theorem rtv_double_list (s : Storage) :
    read_typed_value s TYPE_DOUBLELIST =
      andThen s.read_f64_list fun l s1 => (.ok (.DoubleList l), s1) := by
  unfold read_typed_value
  norm_num [TYPE_DOUBLE, TYPE_INTEGER, TYPE_STRING, TYPE_STRINGLIST, TYPE_DOUBLELIST]

theorem rtv_color (s : Storage) :
    read_typed_value s TYPE_COLOR =
      (andThen s.read_u8 fun r s1 =>
       andThen s1.read_u8 fun g s2 =>
       andThen s2.read_u8 fun b s3 =>
       andThen s3.read_u8 fun a s4 =>
         (.ok (.Color ⟨r, g, b, a⟩), s4)) := by
  unfold read_typed_value
  norm_num [TYPE_DOUBLE, TYPE_INTEGER, TYPE_STRING, TYPE_STRINGLIST, TYPE_DOUBLELIST,
    TYPE_COLOR]

theorem rtv_pos2d (s : Storage) :
    read_typed_value s POSITION_2D =
      (andThen s.read_f64 fun x s1 =>
       andThen s1.read_f64 fun y s2 =>
         (.ok (.Pos2D x y), s2)) := by
  unfold read_typed_value
  norm_num [TYPE_DOUBLE, TYPE_INTEGER, TYPE_STRING, TYPE_STRINGLIST, TYPE_DOUBLELIST,
    TYPE_COLOR, POSITION_2D]

theorem rtv_pos3d (s : Storage) :
    read_typed_value s POSITION_3D =
      (andThen s.read_f64 fun x s1 =>
       andThen s1.read_f64 fun y s2 =>
       andThen s2.read_f64 fun z s3 =>
         (.ok (.Pos3D x y z), s3)) := by
  unfold read_typed_value
  norm_num [TYPE_DOUBLE, TYPE_INTEGER, TYPE_STRING, TYPE_STRINGLIST, TYPE_DOUBLELIST,
    TYPE_COLOR, POSITION_2D, POSITION_3D]

theorem rtv_ubyte (s : Storage) :
    read_typed_value s TYPE_UBYTE =
      andThen s.read_u8 fun b s1 => (.ok (.Int (b : Int)), s1) := by
  unfold read_typed_value
  norm_num [TYPE_DOUBLE, TYPE_INTEGER, TYPE_STRING, TYPE_STRINGLIST, TYPE_DOUBLELIST,
    TYPE_COLOR, POSITION_2D, POSITION_3D, TYPE_UBYTE]

theorem read_typed_value_roundtrip (tv : TraciValue) (tag : Nat) (payload : List Nat)
    (henc : encodeTypedValue tv = some (tag, payload)) (hwf : wfValue tv) :
    (read_typed_value (Storage.from_bytes payload) tag).1 = .ok tv := by
  cases tv with
  | Int v =>
    simp only [encodeTypedValue, Option.some.injEq, Prod.mk.injEq] at henc
    obtain ⟨htag, hpay⟩ := henc
    subst htag
    subst hpay
    obtain ⟨h1, h2⟩ := hwf
    rw [show Storage.from_bytes (Storage.new.write_i32 v).buf =
        (⟨natToBe 4 (natOfI32 v), 0⟩ : Storage) from rfl]
    rw [rtv_int, read_i32_at_int' [] [] v _ 0 (by simp) (by simp) h1 h2 (by norm_num)]
    rfl
  | Double w =>
    simp only [encodeTypedValue, Option.some.injEq, Prod.mk.injEq] at henc
    obtain ⟨htag, hpay⟩ := henc
    subst htag
    subst hpay
    rw [show Storage.from_bytes (Storage.new.write_f64 w).buf =
        (⟨natToBe 8 w, 0⟩ : Storage) from rfl]
    rw [rtv_double, read_f64_at' [] [] w _ 0 (by simp) (by simp) hwf (by norm_num)]
    rfl
  | String str =>
    simp only [encodeTypedValue, Option.some.injEq, Prod.mk.injEq] at henc
    obtain ⟨htag, hpay⟩ := henc
    subst htag
    subst hpay
    obtain ⟨hv, hl⟩ := hwf
    rw [show Storage.from_bytes (Storage.new.write_string str).buf =
        (⟨encString str, 0⟩ : Storage) from rfl]
    rw [rtv_string, read_string_at' [] str [] _ 0 (by simp) (by simp) hv hl (by simp only [List.length_nil]; omega)]
    rfl
  | StringList l =>
    simp only [encodeTypedValue, Option.some.injEq, Prod.mk.injEq] at henc
    obtain ⟨htag, hpay⟩ := henc
    subst htag
    subst hpay
    obtain ⟨hwfl, hcnt, hfit⟩ := hwf
    rw [show Storage.from_bytes (Storage.new.write_string_list l).buf =
        (⟨encStringList l, 0⟩ : Storage) from rfl]
    rw [(write_string_list_new l).symm, rtv_string_list,
      read_write_string_list l hwfl hcnt hfit]
    rfl
  | DoubleList l =>
    simp only [encodeTypedValue, Option.some.injEq, Prod.mk.injEq] at henc
    obtain ⟨htag, hpay⟩ := henc
    subst htag
    subst hpay
    obtain ⟨hwl, hcnt⟩ := hwf
    rw [show Storage.from_bytes (Storage.new.write_f64_list l).buf =
        (⟨encF64List l, 0⟩ : Storage) from rfl]
    rw [(write_f64_list_new l).symm, rtv_double_list, read_write_f64_list l hwl hcnt]
    rfl
  | Color c =>
    obtain ⟨r, g, b, a⟩ := c
    simp only [encodeTypedValue, Option.some.injEq, Prod.mk.injEq] at henc
    obtain ⟨htag, hpay⟩ := henc
    subst htag
    subst hpay
    rw [show Storage.from_bytes
        ((((Storage.new.write_u8 r).write_u8 g).write_u8 b).write_u8 a).buf =
        (⟨[r, g, b, a], 0⟩ : Storage) from rfl]
    rw [rtv_color,
      read_u8_at' [] [g, b, a] r _ 0 (by simp) (by simp) (by norm_num), andThen_ok,
      read_u8_at' [r] [b, a] g _ 1 (by simp) (by simp) (by norm_num), andThen_ok,
      read_u8_at' [r, g] [a] b _ 2 (by simp) (by simp) (by norm_num), andThen_ok,
      read_u8_at' [r, g, b] [] a _ 3 (by simp) (by simp) (by norm_num), andThen_ok]
  | Pos2D x y =>
    simp only [encodeTypedValue, Option.some.injEq, Prod.mk.injEq] at henc
    obtain ⟨htag, hpay⟩ := henc
    subst htag
    subst hpay
    obtain ⟨hx, hy⟩ := hwf
    rw [show Storage.from_bytes ((Storage.new.write_f64 x).write_f64 y).buf =
        (⟨natToBe 8 x ++ natToBe 8 y, 0⟩ : Storage) from rfl]
    rw [rtv_pos2d,
      read_f64_at' [] (natToBe 8 y) x _ 0 (by simp) (by simp) hx (by norm_num), andThen_ok,
      read_f64_at' (natToBe 8 x) [] y _ 8 (by simp) (by simp) hy (by norm_num), andThen_ok]
  | Pos3D x y z =>
    simp only [encodeTypedValue, Option.some.injEq, Prod.mk.injEq] at henc
    obtain ⟨htag, hpay⟩ := henc
    subst htag
    subst hpay
    obtain ⟨hx, hy, hz⟩ := hwf
    rw [show Storage.from_bytes
        (((Storage.new.write_f64 x).write_f64 y).write_f64 z).buf =
        (⟨natToBe 8 x ++ natToBe 8 y ++ natToBe 8 z, 0⟩ : Storage) from rfl]
    rw [rtv_pos3d,
      read_f64_at' [] (natToBe 8 y ++ natToBe 8 z) x _ 0 (by simp) (by simp) hx
        (by norm_num), andThen_ok,
      read_f64_at' (natToBe 8 x) (natToBe 8 z) y _ 8 (by simp) (by simp) hy
        (by norm_num), andThen_ok,
      read_f64_at' (natToBe 8 x ++ natToBe 8 y) [] z _ 16 (by simp) (by simp) hz
        (by norm_num), andThen_ok]
  | Polygon pts => simp [encodeTypedValue] at henc
  | Unknown t raw => simp [encodeTypedValue] at henc

/-- C1: for every primitive value of the six primitive kinds (u8, i32, f64,
string, string-list, f64-list) and every `TraciValue` variant with a core wire
encoding, decoding the bytes produced by the corresponding encode operation
(`Storage::write_*` followed by `Storage::read_*` on the written bytes with
the cursor at the start, resp. `read_typed_value` on the encoded payload)
yields the original value.  Floats are compared as IEEE-754 bit patterns;
strings carry the Rust `String` invariants (valid UTF-8, `i32`-expressible
length). -/
theorem c1_roundtrip :
    (∀ v : Nat, v < 256 → ((Storage.new.write_u8 v).read_u8).1 = .ok v) ∧
    (∀ v : Int, -(2 ^ 31) ≤ v → v < 2 ^ 31 →
      ((Storage.new.write_i32 v).read_i32).1 = .ok v) ∧
    (∀ w : Nat, w < 2 ^ 64 → ((Storage.new.write_f64 w).read_f64).1 = .ok w) ∧
    (∀ str : List Nat, validUtf8 str = true → str.length < 2 ^ 31 →
      ((Storage.new.write_string str).read_string).1 = .ok str) ∧
    (∀ l : List (List Nat), (∀ s ∈ l, validUtf8 s = true ∧ s.length < 2 ^ 31) →
      l.length < 2 ^ 31 → 4 + (encStrings l).length < 2 ^ 64 →
      ((Storage.new.write_string_list l).read_string_list).1 = .ok l) ∧
    (∀ l : List Nat, (∀ w ∈ l, w < 2 ^ 64) → l.length < 2 ^ 31 →
      ((Storage.new.write_f64_list l).read_f64_list).1 = .ok l) ∧
    (∀ (tv : TraciValue) (tag : Nat) (payload : List Nat),
      encodeTypedValue tv = some (tag, payload) → wfValue tv →
      (read_typed_value (Storage.from_bytes payload) tag).1 = .ok tv) := by
  refine ⟨?_, ?_, ?_, ?_, ?_, ?_, ?_⟩
  · intro v _
    rw [show Storage.new.write_u8 v = (⟨[] ++ v :: [], [].length⟩ : Storage) from rfl]
    rw [read_u8_at [] [] v (by norm_num)]
  · intro v h1 h2
    rw [show Storage.new.write_i32 v = (⟨natToBe 4 (natOfI32 v), 0⟩ : Storage) from rfl]
    rw [read_i32_at_int' [] [] v _ 0 (by simp) (by simp) h1 h2 (by norm_num)]
  · intro w hw
    rw [show Storage.new.write_f64 w = (⟨natToBe 8 w, 0⟩ : Storage) from rfl]
    rw [read_f64_at' [] [] w _ 0 (by simp) (by simp) hw (by norm_num)]
  · intro str hv hl
    rw [show Storage.new.write_string str = (⟨encString str, 0⟩ : Storage) from rfl]
    rw [read_string_at' [] str [] _ 0 (by simp) (by simp) hv hl (by simp only [List.length_nil]; omega)]
  · intro l hwf hcnt hfit
    rw [read_write_string_list l hwf hcnt hfit]
  · intro l hw hcnt
    rw [read_write_f64_list l hw hcnt]
  · exact read_typed_value_roundtrip

/-- Witness for C1 at concrete inputs of every covered kind. -/
theorem c1_roundtrip_witness :
    ((Storage.new.write_u8 200).read_u8).1 = .ok 200 ∧
    ((Storage.new.write_i32 (-5)).read_i32).1 = .ok (-5) ∧
    ((Storage.new.write_f64 (2 ^ 63 + 17)).read_f64).1 = .ok (2 ^ 63 + 17) ∧
    ((Storage.new.write_string [118, 48]).read_string).1 = .ok [118, 48] ∧
    ((Storage.new.write_string_list [[97], [195, 169]]).read_string_list).1 =
      .ok [[97], [195, 169]] ∧
    ((Storage.new.write_f64_list [0, 1, 2 ^ 64 - 1]).read_f64_list).1 =
      .ok [0, 1, 2 ^ 64 - 1] ∧
    (read_typed_value (Storage.from_bytes ((Storage.new.write_f64 3).buf))
      TYPE_DOUBLE).1 = .ok (.Double 3) :=
  ⟨c1_roundtrip.1 200 (by decide),
   c1_roundtrip.2.1 (-5) (by decide) (by decide),
   c1_roundtrip.2.2.1 (2 ^ 63 + 17) (by norm_num),
   c1_roundtrip.2.2.2.1 [118, 48] (by decide) (by decide),
   c1_roundtrip.2.2.2.2.1 [[97], [195, 169]] (by decide) (by decide) (by decide),
   c1_roundtrip.2.2.2.2.2.1 [0, 1, 2 ^ 64 - 1] (by decide) (by decide),
   c1_roundtrip.2.2.2.2.2.2 (.Double 3) TYPE_DOUBLE ((Storage.new.write_f64 3).buf)
     (by decide) (by norm_num [wfValue])⟩

/-- C9: for every value-type tag outside the recognized set (double, i32,
string, string list, double list, color, 2-D position, 3-D position, unsigned
byte), `read_typed_value` returns the `Unknown` fallback holding that tag with
an empty raw payload, and the storage — in particular the read cursor — is
unchanged: no payload byte is consumed or preserved. -/
theorem c9_unknown_tag (s : Storage) (t : Nat)
    (h : t ≠ TYPE_DOUBLE ∧ t ≠ TYPE_INTEGER ∧ t ≠ TYPE_STRING ∧ t ≠ TYPE_STRINGLIST ∧
      t ≠ TYPE_DOUBLELIST ∧ t ≠ TYPE_COLOR ∧ t ≠ POSITION_2D ∧ t ≠ POSITION_3D ∧
      t ≠ TYPE_UBYTE) :
    read_typed_value s t = (.ok (.Unknown t []), s) := by
  obtain ⟨h1, h2, h3, h4, h5, h6, h7, h8, h9⟩ := h
  unfold read_typed_value
  rw [if_neg h1, if_neg h2, if_neg h3, if_neg h4, if_neg h5, if_neg h6, if_neg h7,
    if_neg h8, if_neg h9]

/-- Witness for C9 at the compound tag `0x0f`, which the decoder does not
recognize, on a storage holding payload bytes. -/
theorem c9_unknown_tag_witness :
    ((0x0f : Nat) ≠ TYPE_DOUBLE ∧ (0x0f : Nat) ≠ TYPE_INTEGER ∧
      (0x0f : Nat) ≠ TYPE_STRING ∧ (0x0f : Nat) ≠ TYPE_STRINGLIST ∧
      (0x0f : Nat) ≠ TYPE_DOUBLELIST ∧ (0x0f : Nat) ≠ TYPE_COLOR ∧
      (0x0f : Nat) ≠ POSITION_2D ∧ (0x0f : Nat) ≠ POSITION_3D ∧
      (0x0f : Nat) ≠ TYPE_UBYTE) ∧
    read_typed_value (Storage.from_bytes [1, 2, 3]) 0x0f =
      (.ok (.Unknown 0x0f []), Storage.from_bytes [1, 2, 3]) :=
  ⟨by decide, c9_unknown_tag (Storage.from_bytes [1, 2, 3]) 0x0f (by decide)⟩

/-- C2 (failing input): the spec demands that a read of more bytes than
remain fails with a Protocol error and never panics, but `read_string` panics
on the 4-byte buffer `FF FF FF FF`: the length prefix decodes to the `i32`
`-1`, the cast to `usize` sign-extends it to `2 ^ 64 - 1`, the wrapped sum
`pos + len` (release semantics) becomes `3` and passes `check_read`, and the
slice `buf[4..3]` then panics.  (In debug builds the addition itself panics.) -/
theorem c2_read_string_overflow_panic :
    (Storage.from_bytes [0xff, 0xff, 0xff, 0xff]).read_string =
      (.panic "slice index range out of order", ⟨[0xff, 0xff, 0xff, 0xff], 4⟩) := by
  decide

/-- C6: `create_command` uses the 1-byte short length form exactly when the
encoded command length `1 + 1 + 1 + 4 + obj_id.len() + extra` is at most 255,
and the 5-byte extended form (`0x00` followed by the 4-byte big-endian value
`length + 4`) when it exceeds 255. -/
theorem c6_length_form (cmd_id var_id : Nat) (obj_id : List Nat) (add : Option (List Nat)) :
    (1 + 1 + 1 + 4 + obj_id.length + (add.getD []).length ≤ 255 →
      (create_command cmd_id var_id obj_id add).buf =
        (1 + 1 + 1 + 4 + obj_id.length + (add.getD []).length) ::
          cmd_id :: var_id :: (encString obj_id ++ add.getD [])) ∧
    (255 < 1 + 1 + 1 + 4 + obj_id.length + (add.getD []).length →
      1 + 1 + 1 + 4 + obj_id.length + (add.getD []).length + 4 < 2 ^ 31 →
      (create_command cmd_id var_id obj_id add).buf =
        0 :: (natToBe 4 (1 + 1 + 1 + 4 + obj_id.length + (add.getD []).length + 4) ++
          (cmd_id :: var_id :: (encString obj_id ++ add.getD [])))) := by
  constructor
  · intro h
    cases add with
    | none =>
      simp only [Option.getD, List.length_nil, Nat.add_zero] at h ⊢
      simp only [create_command]
      split
      · rw [write_string_buf]
        simp only [Storage.write_u8, Storage.new, List.nil_append, List.cons_append,
          List.append_assoc, List.append_nil]
        congr 1
        omega
      · omega
    | some s =>
      simp only [Option.getD] at h ⊢
      simp only [create_command]
      split
      · rw [Storage.write_packet, write_string_buf]
        simp only [Storage.write_u8, Storage.new, List.nil_append, List.cons_append,
          List.append_assoc]
        congr 1
        omega
      · omega
  · intro h hfit
    cases add with
    | none =>
      simp only [Option.getD, List.length_nil, Nat.add_zero] at h hfit ⊢
      simp only [create_command]
      split
      · omega
      · have hcast : natOfI32 (usizeAsI32 (1 + 1 + 1 + 4 + obj_id.length + 0 + 4)) =
            1 + 1 + 1 + 4 + obj_id.length + 0 + 4 := by
          rw [usizeAsI32_eq (1 + 1 + 1 + 4 + obj_id.length + 0 + 4) (by omega)]
          exact natOfI32_ofNat _ (by omega)
        rw [write_string_buf]
        simp only [Storage.write_u8, Storage.write_i32, Storage.new, List.nil_append,
          List.cons_append, List.append_assoc, List.append_nil, hcast]
    | some s =>
      simp only [Option.getD] at h hfit ⊢
      simp only [create_command]
      split
      · omega
      · have hcast : natOfI32 (usizeAsI32 (1 + 1 + 1 + 4 + obj_id.length + s.length + 4)) =
            1 + 1 + 1 + 4 + obj_id.length + s.length + 4 := by
          rw [usizeAsI32_eq (1 + 1 + 1 + 4 + obj_id.length + s.length + 4) (by omega)]
          exact natOfI32_ofNat _ (by omega)
        rw [Storage.write_packet, write_string_buf]
        simp only [Storage.write_u8, Storage.write_i32, Storage.new, List.nil_append,
          List.cons_append, List.append_assoc, hcast]

set_option maxRecDepth 8000 in
/-- Witness for C6: an object id of length 2 gives command length
`1+1+1+4+2 = 9` and the short form, and an object id of length 260 gives
length 267 > 255 and the extended form (header byte `0x00`). -/
theorem c6_length_form_witness :
    (create_command 0xa4 0x40 [97, 98] none).buf.headD 7 = 9 ∧
    (create_command 0xa4 0x40 (List.replicate 260 97) none).buf.headD 7 = 0 := by
  constructor
  · have h := (c6_length_form 0xa4 0x40 [97, 98] none).1 (by simp)
    rw [h]
    simp
  · have h := (c6_length_form 0xa4 0x40 (List.replicate 260 97) none).2
      (by simp) (by simp)
    rw [h]
    simp

-- ---------------------------------------------------------------------------
-- Result-status and get-response validation (C3, C7)
-- ---------------------------------------------------------------------------

/-- A well-formed result-status response buffer: length byte, echoed command
id, result-type byte, encoded message string, trailing bytes. -/
def statusBuf (lenByte cmd_idb result_type : Nat) (msg rest : List Nat) : List Nat :=
  [lenByte, cmd_idb, result_type] ++ encString msg ++ rest

theorem check_result_state_unfold (command lenByte cmd_idb result_type : Nat)
    (msg rest : List Nat) (hval : validUtf8 msg = true) (hlen : msg.length < 2 ^ 31) :
    check_result_state_static
        (Storage.from_bytes (statusBuf lenByte cmd_idb result_type msg rest)) command false =
      if cmd_idb ≠ command then
        (.error (.Protocol "Received status for unexpected command"),
          ⟨statusBuf lenByte cmd_idb result_type msg rest, 2⟩)
      else if result_type = RTYPE_OK then
        (.ok (), ⟨statusBuf lenByte cmd_idb result_type msg rest, 3 + 4 + msg.length⟩)
      else if result_type = RTYPE_NOTIMPLEMENTED then
        (.error (.NotImplemented command msg),
          ⟨statusBuf lenByte cmd_idb result_type msg rest, 3 + 4 + msg.length⟩)
      else if result_type = RTYPE_ERR then
        (.error (.SimulationError command msg),
          ⟨statusBuf lenByte cmd_idb result_type msg rest, 3 + 4 + msg.length⟩)
      else
        (.error (.Protocol "Unknown result type"),
          ⟨statusBuf lenByte cmd_idb result_type msg rest, 3 + 4 + msg.length⟩) := by
  unfold check_result_state_static
  simp only [Storage.from_bytes]
  rw [read_u8_at' [] ([cmd_idb, result_type] ++ encString msg ++ rest) lenByte
    (statusBuf lenByte cmd_idb result_type msg rest) 0 (by simp [statusBuf]) (by simp)
    (by simp), andThen_ok]
  rw [read_u8_at' [lenByte] ([result_type] ++ encString msg ++ rest) cmd_idb
    (statusBuf lenByte cmd_idb result_type msg rest) 1 (by simp [statusBuf]) (by simp)
    (by simp), andThen_ok]
  by_cases hc : cmd_idb = command
  · rw [if_neg (by simp [hc]), if_neg (by simp [hc])]
    rw [read_u8_at' [lenByte, cmd_idb] (encString msg ++ rest) result_type
      (statusBuf lenByte cmd_idb result_type msg rest) 2 (by simp [statusBuf]) (by simp)
      (by simp), andThen_ok]
    rw [read_string_at' [lenByte, cmd_idb, result_type] msg rest
      (statusBuf lenByte cmd_idb result_type msg rest) 3
      (by simp [statusBuf, List.append_assoc]) (by simp) hval hlen
      (by simp only [List.length_cons, List.length_nil]; omega), andThen_ok]
  · rw [if_pos (by simp [hc]), if_pos hc]

/-- C3: on a well-formed result-status buffer, validation with an expected
command id succeeds exactly when the result-type byte is `0x00` and the echoed
command id equals the expected id; a different echoed id fails with a Protocol
error (the result type is not even reached); with a matching id, result type
`0xFF` fails with `SimulationError` carrying the embedded message, `0x01`
fails with `NotImplemented`, and any other nonzero result type fails with a
Protocol error. -/
theorem c3_check_result_state (command lenByte cmd_idb result_type : Nat)
    (msg rest : List Nat) (hval : validUtf8 msg = true) (hlen : msg.length < 2 ^ 31) :
    (((check_result_state_static
        (Storage.from_bytes (statusBuf lenByte cmd_idb result_type msg rest))
        command false).1 = .ok ()) ↔ (cmd_idb = command ∧ result_type = RTYPE_OK)) ∧
    (cmd_idb ≠ command → ∃ m, (check_result_state_static
        (Storage.from_bytes (statusBuf lenByte cmd_idb result_type msg rest))
        command false).1 = .error (.Protocol m)) ∧
    (cmd_idb = command → result_type = RTYPE_ERR → (check_result_state_static
        (Storage.from_bytes (statusBuf lenByte cmd_idb result_type msg rest))
        command false).1 = .error (.SimulationError command msg)) ∧
    (cmd_idb = command → result_type = RTYPE_NOTIMPLEMENTED → (check_result_state_static
        (Storage.from_bytes (statusBuf lenByte cmd_idb result_type msg rest))
        command false).1 = .error (.NotImplemented command msg)) ∧
    (cmd_idb = command → result_type ≠ RTYPE_OK → result_type ≠ RTYPE_NOTIMPLEMENTED →
      result_type ≠ RTYPE_ERR → ∃ m, (check_result_state_static
        (Storage.from_bytes (statusBuf lenByte cmd_idb result_type msg rest))
        command false).1 = .error (.Protocol m)) := by
  rw [check_result_state_unfold command lenByte cmd_idb result_type msg rest hval hlen]
  refine ⟨?_, ?_, ?_, ?_, ?_⟩
  · by_cases hc : cmd_idb = command
    · by_cases hr : result_type = RTYPE_OK
      · simp [hc, hr]
      · by_cases hn : result_type = RTYPE_NOTIMPLEMENTED
        · simp [hc, hr, hn, RTYPE_OK, RTYPE_NOTIMPLEMENTED]
        · by_cases he : result_type = RTYPE_ERR
          · simp [hc, hr, hn, he, RTYPE_OK, RTYPE_NOTIMPLEMENTED, RTYPE_ERR]
          · simp [hc, hr, hn, he]
    · simp [hc]
  · intro hc
    exact ⟨"Received status for unexpected command", by simp [hc]⟩
  · intro hc hr
    simp [hc, hr, RTYPE_ERR, RTYPE_OK, RTYPE_NOTIMPLEMENTED]
  · intro hc hr
    simp [hc, hr, RTYPE_NOTIMPLEMENTED, RTYPE_OK]
  · intro hc h1 h2 h3
    exact ⟨"Unknown result type", by simp [hc, h1, h2, h3]⟩

/-- Witness for C3: the spec's concrete case — echoed id `0x05` for an
expected `0x02` fails with a Protocol error, and the same buffer with a
matching echo and result type `0x00` succeeds. -/
theorem c3_check_result_state_witness :
    (∃ m, (check_result_state_static
        (Storage.from_bytes (statusBuf 11 0x05 0x00 [111, 107] [])) 0x02 false).1 =
        .error (.Protocol m)) ∧
    (check_result_state_static
        (Storage.from_bytes (statusBuf 11 0x02 0x00 [111, 107] [])) 0x02 false).1 =
        .ok () ∧
    (check_result_state_static
        (Storage.from_bytes (statusBuf 11 0x02 0xff [101, 114] [])) 0x02 false).1 =
        .error (.SimulationError 0x02 [101, 114]) :=
  ⟨(c3_check_result_state 0x02 11 0x05 0x00 [111, 107] [] (by decide) (by decide)).2.1
      (by decide),
   ((c3_check_result_state 0x02 11 0x02 0x00 [111, 107] [] (by decide) (by decide)).1).2
      ⟨rfl, rfl⟩,
   (c3_check_result_state 0x02 11 0x02 0xff [101, 114] [] (by decide) (by decide)).2.2.1
      rfl rfl⟩

/-- A well-formed GET-response buffer (short length form): length byte,
response command id, variable-id echo, encoded object-id echo, value-type
tag, typed payload. -/
def getRespBuf (lenByte resp_id var_id : Nat) (obj_id : List Nat)
    (value_type : Nat) (rest : List Nat) : List Nat :=
  [lenByte, resp_id, var_id] ++ encString obj_id ++ value_type :: rest

theorem check_command_get_result_unfold (command lenByte resp_id var_id value_type
    exp_type : Nat) (obj_id rest : List Nat) (hlb : lenByte ≠ 0)
    (hval : validUtf8 obj_id = true) (hlen : obj_id.length < 2 ^ 31) :
    check_command_get_result_static
        (Storage.from_bytes (getRespBuf lenByte resp_id var_id obj_id value_type rest))
        command (some exp_type) false =
      if resp_id ≠ (command + 0x10) % 256 then
        (.error (.Protocol "Received response for unexpected command"),
          ⟨getRespBuf lenByte resp_id var_id obj_id value_type rest, 2⟩)
      else if value_type ≠ exp_type then
        (.error (.Protocol "Expected type mismatch"),
          ⟨getRespBuf lenByte resp_id var_id obj_id value_type rest,
            3 + 4 + obj_id.length + 1⟩)
      else
        (.ok resp_id,
          ⟨getRespBuf lenByte resp_id var_id obj_id value_type rest,
            3 + 4 + obj_id.length + 1⟩) := by
  unfold check_command_get_result_static
  simp only [Storage.from_bytes]
  rw [read_u8_at' [] ([resp_id, var_id] ++ encString obj_id ++ value_type :: rest) lenByte
    (getRespBuf lenByte resp_id var_id obj_id value_type rest) 0 (by simp [getRespBuf])
    (by simp) (by simp), andThen_ok]
  rw [if_neg hlb, andThen_ok]
  rw [read_u8_at' [lenByte] ([var_id] ++ encString obj_id ++ value_type :: rest) resp_id
    (getRespBuf lenByte resp_id var_id obj_id value_type rest) 1 (by simp [getRespBuf])
    (by simp) (by simp), andThen_ok]
  by_cases hc : resp_id = (command + 0x10) % 256
  · rw [if_neg (by simp [hc]), if_neg (by simp [hc])]
    rw [read_u8_at' [lenByte, resp_id] (encString obj_id ++ value_type :: rest) var_id
      (getRespBuf lenByte resp_id var_id obj_id value_type rest) 2 (by simp [getRespBuf])
      (by simp) (by simp), andThen_ok]
    rw [read_string_at' [lenByte, resp_id, var_id] obj_id (value_type :: rest)
      (getRespBuf lenByte resp_id var_id obj_id value_type rest) 3
      (by simp [getRespBuf, List.append_assoc]) (by simp) hval hlen
      (by simp only [List.length_cons, List.length_nil]; omega), andThen_ok]
    rw [read_u8_at' ([lenByte, resp_id, var_id] ++ encString obj_id) rest value_type
      (getRespBuf lenByte resp_id var_id obj_id value_type rest) (3 + 4 + obj_id.length)
      (by simp [getRespBuf, List.append_assoc])
      (by simp [encString_length obj_id hlen]; omega)
      (by simp [encString_length obj_id hlen]; omega), andThen_ok]
  · rw [if_pos (by simp [hc]), if_pos hc]

/-- C7: get-response validation with `ignore_command_id = false` fails with a
Protocol error unless the response command id equals the request id plus
`0x10`; with an expected type it additionally reads a variable-id echo and an
object-id echo (the cursor ends past them) and fails with a Protocol error
unless the value-type tag equals the expected type exactly; when everything
matches it succeeds — a type-tag mismatch is never silently accepted. -/
theorem c7_check_command_get_result (command lenByte resp_id var_id value_type
    exp_type : Nat) (obj_id rest : List Nat) (hlb : lenByte ≠ 0)
    (hval : validUtf8 obj_id = true) (hlen : obj_id.length < 2 ^ 31) :
    (resp_id ≠ (command + 0x10) % 256 → ∃ m, (check_command_get_result_static
        (Storage.from_bytes (getRespBuf lenByte resp_id var_id obj_id value_type rest))
        command (some exp_type) false).1 = .error (.Protocol m)) ∧
    (resp_id = (command + 0x10) % 256 → value_type ≠ exp_type →
      ∃ m, (check_command_get_result_static
        (Storage.from_bytes (getRespBuf lenByte resp_id var_id obj_id value_type rest))
        command (some exp_type) false).1 = .error (.Protocol m)) ∧
    (resp_id = (command + 0x10) % 256 → value_type = exp_type →
      check_command_get_result_static
        (Storage.from_bytes (getRespBuf lenByte resp_id var_id obj_id value_type rest))
        command (some exp_type) false =
        (.ok resp_id,
          ⟨getRespBuf lenByte resp_id var_id obj_id value_type rest,
            3 + 4 + obj_id.length + 1⟩)) := by
  rw [check_command_get_result_unfold command lenByte resp_id var_id value_type exp_type
    obj_id rest hlb hval hlen]
  refine ⟨?_, ?_, ?_⟩
  · intro hc
    exact ⟨"Received response for unexpected command", by simp [hc]⟩
  · intro hc hv
    exact ⟨"Expected type mismatch", by simp [hc, hv]⟩
  · intro hc hv
    simp [hc, hv]

/-- Witness for C7: request id `0xa4` demands response id `0xb4`; a response
id `0xb5` fails, a matching response with the wrong type tag fails, and a
matching response with the expected type tag succeeds. -/
theorem c7_check_command_get_result_witness :
    (∃ m, (check_command_get_result_static
        (Storage.from_bytes (getRespBuf 9 0xb5 0x40 [118, 48] 0x0b [])) 0xa4
        (some 0x0b) false).1 = .error (.Protocol m)) ∧
    (∃ m, (check_command_get_result_static
        (Storage.from_bytes (getRespBuf 9 0xb4 0x40 [118, 48] 0x09 [])) 0xa4
        (some 0x0b) false).1 = .error (.Protocol m)) ∧
    (check_command_get_result_static
        (Storage.from_bytes (getRespBuf 9 0xb4 0x40 [118, 48] 0x0b [])) 0xa4
        (some 0x0b) false).1 = .ok 0xb4 :=
  ⟨(c7_check_command_get_result 0xa4 9 0xb5 0x40 0x0b 0x0b [118, 48] []
      (by decide) (by decide) (by decide)).1 (by decide),
   (c7_check_command_get_result 0xa4 9 0xb4 0x40 0x09 0x0b [118, 48] []
      (by decide) (by decide) (by decide)).2.1 (by decide) (by decide),
   by rw [(c7_check_command_get_result 0xa4 9 0xb4 0x40 0x0b 0x0b [118, 48] []
      (by decide) (by decide) (by decide)).2.2 (by decide) rfl]⟩

-- ---------------------------------------------------------------------------
-- Context subscriptions (C8) and unmapped routing ids (C10)
-- ---------------------------------------------------------------------------

/-- C8: a context-subscription response whose routing id maps to a domain and
that reports 0 found objects for an anchor object produces an entry mapping
the anchor to an empty map in that domain's `context_subscription_results` —
a present key with an empty value, not a missing key. -/
theorem c8_context_empty (cmd_id : Nat) (d : DomainId) (hdom : domains cmd_id = some d)
    (st : ClientCaches) (anchor : List Nat) (dom_byte var_count : Nat) (rest : List Nat)
    (hv : validUtf8 anchor = true) (hl : anchor.length < 2 ^ 31) :
    read_context_subscription cmd_id st
        (Storage.from_bytes
          (encString anchor ++ [dom_byte, var_count] ++ natToBe 4 0 ++ rest)) =
      (.ok (), setCtx st d (mapInsert (st.context_subscription_results d) anchor []),
        ⟨encString anchor ++ [dom_byte, var_count] ++ natToBe 4 0 ++ rest,
          0 + 4 + anchor.length + 1 + 1 + 4⟩) ∧
    mapLookup ((read_context_subscription cmd_id st
        (Storage.from_bytes
          (encString anchor ++ [dom_byte, var_count] ++ natToBe 4 0 ++ rest))).2.1.context_subscription_results
        d) anchor = some [] := by
  have hanc := encString_length anchor hl
  have hmain : read_context_subscription cmd_id st
      (Storage.from_bytes
        (encString anchor ++ [dom_byte, var_count] ++ natToBe 4 0 ++ rest)) =
      (.ok (), setCtx st d (mapInsert (st.context_subscription_results d) anchor []),
        ⟨encString anchor ++ [dom_byte, var_count] ++ natToBe 4 0 ++ rest,
          0 + 4 + anchor.length + 1 + 1 + 4⟩) := by
    unfold read_context_subscription
    simp only [Storage.from_bytes]
    rw [read_string_at' [] anchor ([dom_byte, var_count] ++ natToBe 4 0 ++ rest)
      (encString anchor ++ [dom_byte, var_count] ++ natToBe 4 0 ++ rest) 0
      (by simp [List.append_assoc]) (by simp) hv hl
      (by simp only [List.length_nil]; omega), andThenSt_ok]
    rw [read_u8_at' (encString anchor) ([var_count] ++ natToBe 4 0 ++ rest) dom_byte
      (encString anchor ++ [dom_byte, var_count] ++ natToBe 4 0 ++ rest)
      (0 + 4 + anchor.length) (by simp [List.append_assoc]) (by omega) (by omega),
      andThenSt_ok]
    rw [read_u8_at' (encString anchor ++ [dom_byte]) (natToBe 4 0 ++ rest) var_count
      (encString anchor ++ [dom_byte, var_count] ++ natToBe 4 0 ++ rest)
      (0 + 4 + anchor.length + 1)
      (by simp [List.append_assoc])
      (by simp only [List.length_append, List.length_cons, List.length_nil, hanc])
      (by simp only [List.length_append, List.length_cons, List.length_nil, hanc]; omega),
      andThenSt_ok]
    rw [read_i32_at_nat' (encString anchor ++ [dom_byte, var_count]) rest 0
      (encString anchor ++ [dom_byte, var_count] ++ natToBe 4 0 ++ rest)
      (0 + 4 + anchor.length + 1 + 1)
      (by simp [List.append_assoc])
      (by simp only [List.length_append, List.length_cons, List.length_nil, hanc])
      (by norm_num)
      (by simp only [List.length_append, List.length_cons, List.length_nil, hanc]; omega),
      andThenSt_ok]
    rw [show (if ((0 : Nat) : Int) < 0 then 0 else ((0 : Nat) : Int).toNat) = 0 by norm_num]
    rw [show read_ctx_loop
        (⟨encString anchor ++ [dom_byte, var_count] ++ natToBe 4 0 ++ rest,
          0 + 4 + anchor.length + 1 + 1 + 4⟩ : Storage) var_count [] 0 =
      (.ok [], ⟨encString anchor ++ [dom_byte, var_count] ++ natToBe 4 0 ++ rest,
          0 + 4 + anchor.length + 1 + 1 + 4⟩) from rfl, andThenSt_ok]
    simp only [hdom]
  refine ⟨hmain, ?_⟩
  rw [hmain]
  simp [setCtx, mapLookup_mapInsert_self]

/-- Witness for C8 at anchor "v0" (bytes `[118, 48]`) and the Vehicle routing
id `0xe4` on nonempty starting caches. -/
theorem c8_context_empty_witness :
    domains 0xe4 = some DomainId.Vehicle ∧
    mapLookup ((read_context_subscription 0xe4 emptyCaches
        (Storage.from_bytes
          (encString [118, 48] ++ [0, 0] ++ natToBe 4 0 ++ []))).2.1.context_subscription_results
        DomainId.Vehicle) [118, 48] = some [] :=
  ⟨by decide,
   (c8_context_empty 0xe4 DomainId.Vehicle (by decide) emptyCaches [118, 48] 0 0 []
      (by decide) (by decide)).2⟩

/-- C10: a subscription response whose routing id is not a key of the
domain-routing table is still fully parsed (the returned storage is the
post-body state of the parse), the call returns success, and the caches are
returned unchanged — the decoded results are silently discarded. -/
theorem c10_unmapped_discard (cmd_id : Nat) (hdom : domains cmd_id = none)
    (st : ClientCaches) :
    (∀ (msg : Storage) (object_id : List Nat) (s1 : Storage) (var_count : Nat)
        (s2 : Storage) (results : TraciResults) (s3 : Storage),
      msg.read_string = (.ok object_id, s1) →
      s1.read_u8 = (.ok var_count, s2) →
      read_variables_static s2 var_count = (.ok results, s3) →
      read_variable_subscription cmd_id st msg = (.ok (), st, s3)) ∧
    (∀ (msg : Storage) (context_id : List Nat) (s1 : Storage) (b1 var_count : Nat)
        (s2 s3 : Storage) (nobj : Int) (s4 : Storage) (ctxres : SubscriptionResults)
        (s5 : Storage),
      msg.read_string = (.ok context_id, s1) →
      s1.read_u8 = (.ok b1, s2) →
      s2.read_u8 = (.ok var_count, s3) →
      s3.read_i32 = (.ok nobj, s4) →
      read_ctx_loop s4 var_count [] (if nobj < 0 then 0 else nobj.toNat) =
        (.ok ctxres, s5) →
      read_context_subscription cmd_id st msg = (.ok (), st, s5)) := by
  constructor
  · intro msg object_id s1 var_count s2 results s3 h1 h2 h3
    unfold read_variable_subscription
    rw [h1, andThenSt_ok, h2, andThenSt_ok, h3, andThenSt_ok]
    simp only [hdom]
  · intro msg context_id s1 b1 var_count s2 s3 nobj s4 ctxres s5 h1 h2 h3 h4 h5
    unfold read_context_subscription
    rw [h1, andThenSt_ok, h2, andThenSt_ok, h3, andThenSt_ok, h4, andThenSt_ok, h5,
      andThenSt_ok]
    simp only [hdom]

/-- Witness for C10 at the unmapped routing id `0xb8` (where a misrouted
Rerouter variable response lands after the `0x50` offset), with well-formed
variable and context bodies. -/
theorem c10_unmapped_discard_witness :
    domains 0xb8 = none ∧
    read_variable_subscription 0xb8 emptyCaches
        (Storage.from_bytes (encString [97] ++ [0])) =
      (.ok (), emptyCaches, ⟨encString [97] ++ [0], 6⟩) ∧
    read_context_subscription 0xb8 emptyCaches
        (Storage.from_bytes (encString [97] ++ [0, 0] ++ natToBe 4 0)) =
      (.ok (), emptyCaches, ⟨encString [97] ++ [0, 0] ++ natToBe 4 0, 11⟩) :=
  ⟨by decide,
   (c10_unmapped_discard 0xb8 (by decide) emptyCaches).1
      (Storage.from_bytes (encString [97] ++ [0])) [97] ⟨encString [97] ++ [0], 5⟩ 0
      ⟨encString [97] ++ [0], 6⟩ [] ⟨encString [97] ++ [0], 6⟩
      (by decide) (by decide) (by decide),
   (c10_unmapped_discard 0xb8 (by decide) emptyCaches).2
      (Storage.from_bytes (encString [97] ++ [0, 0] ++ natToBe 4 0)) [97]
      ⟨encString [97] ++ [0, 0] ++ natToBe 4 0, 5⟩ 0 0
      ⟨encString [97] ++ [0, 0] ++ natToBe 4 0, 6⟩
      ⟨encString [97] ++ [0, 0] ++ natToBe 4 0, 7⟩ 0
      ⟨encString [97] ++ [0, 0] ++ natToBe 4 0, 11⟩ []
      ⟨encString [97] ++ [0, 0] ++ natToBe 4 0, 11⟩
      (by decide) (by decide) (by decide) (by decide) (by decide)⟩

-- ---------------------------------------------------------------------------
-- Dispatcher classification (C5)
-- ---------------------------------------------------------------------------

theorem check_header_ignore (lenByte cmd_id : Nat) (rest : List Nat) (hlb : lenByte ≠ 0) :
    check_command_get_result_static (Storage.from_bytes ([lenByte, cmd_id] ++ rest))
        0 none true =
      (.ok cmd_id, ⟨[lenByte, cmd_id] ++ rest, 2⟩) := by
  unfold check_command_get_result_static
  simp only [Storage.from_bytes]
  rw [read_u8_at' [] ([cmd_id] ++ rest) lenByte ([lenByte, cmd_id] ++ rest) 0
    (by simp) (by simp) (by simp), andThen_ok]
  rw [if_neg hlb, andThen_ok]
  rw [read_u8_at' [lenByte] rest cmd_id ([lenByte, cmd_id] ++ rest) 1
    (by simp) (by simp) (by simp), andThen_ok]
  rw [if_neg (by simp)]

/-- C5: in the step-advance batch loop, a response whose header byte yields
command id `cmd_id` is dispatched to variable-subscription parsing exactly
when `cmd_id` lies in the contiguous variable-subscription-response range
`0xe0 ..= 0xee`, and every other id goes to context-subscription parsing
under the fixed `0x50` offset (`wrapping_add`); a variable response whose id
the routing table maps to a domain has its decoded map inserted into exactly
that domain's `subscription_results` under its object id, replacing any prior
entry for that object id and leaving every other cache untouched. -/
theorem c5_dispatch (lenByte cmd_id : Nat) (rest : List Nat) (st : ClientCaches)
    (hlb : lenByte ≠ 0) :
    (processOneSub st (Storage.from_bytes ([lenByte, cmd_id] ++ rest)) =
      if RESPONSE_SUBSCRIBE_INDUCTIONLOOP_VARIABLE ≤ cmd_id ∧
          cmd_id ≤ RESPONSE_SUBSCRIBE_PERSON_VARIABLE then
        read_variable_subscription cmd_id st ⟨[lenByte, cmd_id] ++ rest, 2⟩
      else
        read_context_subscription ((cmd_id + 0x50) % 256) st
          ⟨[lenByte, cmd_id] ++ rest, 2⟩) ∧
    (∀ (d : DomainId), domains cmd_id = some d →
      RESPONSE_SUBSCRIBE_INDUCTIONLOOP_VARIABLE ≤ cmd_id →
      cmd_id ≤ RESPONSE_SUBSCRIBE_PERSON_VARIABLE →
      ∀ (object_id : List Nat) (s1 : Storage) (var_count : Nat) (s2 : Storage)
        (results : TraciResults) (s3 : Storage),
      (⟨[lenByte, cmd_id] ++ rest, 2⟩ : Storage).read_string = (.ok object_id, s1) →
      s1.read_u8 = (.ok var_count, s2) →
      read_variables_static s2 var_count = (.ok results, s3) →
      processOneSub st (Storage.from_bytes ([lenByte, cmd_id] ++ rest)) =
        (.ok (), setSub st d (mapInsert (st.subscription_results d) object_id results),
          s3)) ∧
    (∀ (m : SubscriptionResults) (k : List Nat) (v : TraciResults),
      mapLookup (mapInsert m k v) k = some v) ∧
    (∀ (m : SubscriptionResults) (k k2 : List Nat) (v : TraciResults), k2 ≠ k →
      mapLookup (mapInsert m k v) k2 = mapLookup m k2) ∧
    (∀ (d d2 : DomainId) (M : SubscriptionResults),
      (setSub st d M).context_subscription_results d2 =
        st.context_subscription_results d2 ∧
      (d2 ≠ d → (setSub st d M).subscription_results d2 = st.subscription_results d2) ∧
      (setSub st d M).subscription_results d = M) := by
  have hhdr := check_header_ignore lenByte cmd_id rest hlb
  refine ⟨?_, ?_, ?_, ?_, ?_⟩
  · unfold processOneSub
    rw [hhdr, andThenSt_ok]
  · intro d hdom hlo hhi object_id s1 var_count s2 results s3 h1 h2 h3
    unfold processOneSub
    rw [hhdr, andThenSt_ok, if_pos ⟨hlo, hhi⟩]
    unfold read_variable_subscription
    rw [h1, andThenSt_ok, h2, andThenSt_ok, h3, andThenSt_ok]
    simp only [hdom]
  · intro m k v
    exact mapLookup_mapInsert_self m k v
  · intro m k k2 v h
    exact mapLookup_mapInsert_ne m k k2 v h
  · intro d d2 M
    refine ⟨rfl, fun h => ?_, ?_⟩
    · simp [setSub, h]
    · simp [setSub]

/-- Witness for C5: the Vehicle variable-response id `0xe4` is in range and a
one-object zero-variable body lands in the Vehicle cache; the Rerouter
variable-response id `0x68` is below the range, so it is dispatched as a
context response with routing id `0x68 + 0x50 = 0xb8`. -/
theorem c5_dispatch_witness :
    processOneSub emptyCaches
        (Storage.from_bytes ([9, 0xe4] ++ encString [118, 48] ++ [0])) =
      (.ok (),
        setSub emptyCaches DomainId.Vehicle
          (mapInsert (emptyCaches.subscription_results DomainId.Vehicle) [118, 48] []),
        ⟨[9, 0xe4] ++ encString [118, 48] ++ [0], 9⟩) ∧
    processOneSub emptyCaches (Storage.from_bytes ([9, 0x68] ++ [42])) =
      read_context_subscription 0xb8 emptyCaches ⟨[9, 0x68] ++ [42], 2⟩ :=
  ⟨(c5_dispatch 9 0xe4 (encString [118, 48] ++ [0]) emptyCaches (by decide)).2.1
      DomainId.Vehicle (by decide) (by decide) (by decide) [118, 48]
      ⟨[9, 0xe4] ++ encString [118, 48] ++ [0], 8⟩ 0
      ⟨[9, 0xe4] ++ encString [118, 48] ++ [0], 9⟩ []
      ⟨[9, 0xe4] ++ encString [118, 48] ++ [0], 9⟩
      (by decide) (by decide) (by decide),
   by
    rw [(c5_dispatch 9 0x68 [42] emptyCaches (by decide)).1]
    norm_num [RESPONSE_SUBSCRIBE_INDUCTIONLOOP_VARIABLE]⟩

-- ---------------------------------------------------------------------------
-- Step-advance cache behaviour (C4)
-- ---------------------------------------------------------------------------

/-- Two processing results agree on everything except the context caches:
same outcome, same variable-subscription caches, same remaining input. -/
def SubsAgree (x y : Outcome Unit × ClientCaches × Storage) : Prop :=
  x.1 = y.1 ∧ x.2.1.subscription_results = y.2.1.subscription_results ∧ x.2.2 = y.2.2

theorem andThenSt_congr {α : Type} (a b : ClientCaches) (r : Outcome α × Storage)
    (f g : α → Storage → Outcome Unit × ClientCaches × Storage)
    (hsub : a.subscription_results = b.subscription_results)
    (hfg : ∀ x s, SubsAgree (f x s) (g x s)) :
    SubsAgree (andThenSt a r f) (andThenSt b r g) := by
  rcases r with ⟨o, s⟩
  rcases o with x | e | m
  · exact hfg x s
  · exact ⟨rfl, hsub, rfl⟩
  · exact ⟨rfl, hsub, rfl⟩

theorem read_variable_subscription_congr (cmd_id : Nat) (a b : ClientCaches)
    (msg : Storage) (h : a.subscription_results = b.subscription_results) :
    SubsAgree (read_variable_subscription cmd_id a msg)
      (read_variable_subscription cmd_id b msg) := by
  unfold read_variable_subscription
  refine andThenSt_congr a b _ _ _ h fun object_id s1 => ?_
  refine andThenSt_congr a b _ _ _ h fun var_count s2 => ?_
  refine andThenSt_congr a b _ _ _ h fun results s3 => ?_
  rcases hd : domains cmd_id with _ | d
  · exact ⟨rfl, h, rfl⟩
  · exact ⟨rfl, by simp [setSub, h], rfl⟩

theorem read_context_subscription_congr (cmd_id : Nat) (a b : ClientCaches)
    (msg : Storage) (h : a.subscription_results = b.subscription_results) :
    SubsAgree (read_context_subscription cmd_id a msg)
      (read_context_subscription cmd_id b msg) := by
  unfold read_context_subscription
  refine andThenSt_congr a b _ _ _ h fun context_id s1 => ?_
  refine andThenSt_congr a b _ _ _ h fun cd s2 => ?_
  refine andThenSt_congr a b _ _ _ h fun var_count s3 => ?_
  refine andThenSt_congr a b _ _ _ h fun num_objects s4 => ?_
  refine andThenSt_congr a b _ _ _ h fun ctx_results s5 => ?_
  rcases hd : domains cmd_id with _ | d
  · exact ⟨rfl, h, rfl⟩
  · exact ⟨rfl, by simp [setCtx, h], rfl⟩

theorem processOneSub_congr (a b : ClientCaches) (msg : Storage)
    (h : a.subscription_results = b.subscription_results) :
    SubsAgree (processOneSub a msg) (processOneSub b msg) := by
  unfold processOneSub
  refine andThenSt_congr a b _ _ _ h fun cmd_id s1 => ?_
  by_cases hr : RESPONSE_SUBSCRIBE_INDUCTIONLOOP_VARIABLE ≤ cmd_id ∧
      cmd_id ≤ RESPONSE_SUBSCRIBE_PERSON_VARIABLE
  · rw [if_pos hr, if_pos hr]
    exact read_variable_subscription_congr cmd_id a b s1 h
  · rw [if_neg hr, if_neg hr]
    exact read_context_subscription_congr ((cmd_id + 0x50) % 256) a b s1 h

theorem stepLoop_congr (n : Nat) (a b : ClientCaches) (msg : Storage)
    (h : a.subscription_results = b.subscription_results) :
    SubsAgree (stepLoop n a msg) (stepLoop n b msg) := by
  induction n generalizing a b msg with
  | zero => exact ⟨rfl, h, rfl⟩
  | succ n ih =>
    have hp := processOneSub_congr a b msg h
    rcases hpa : processOneSub a msg with ⟨oa, sta, msga⟩
    rcases hpb : processOneSub b msg with ⟨ob, stb, msgb⟩
    rw [hpa, hpb] at hp
    obtain ⟨ho, hs, hm⟩ := hp
    simp only at ho hs hm
    subst ho
    subst hm
    rcases oa with u | e | m
    · simp only [stepLoop, hpa, hpb]
      exact ih sta stb msga hs
    · simp only [stepLoop, hpa, hpb]
      exact ⟨rfl, hs, rfl⟩
    · simp only [stepLoop, hpa, hpb]
      exact ⟨rfl, hs, rfl⟩

theorem simulation_step_subs_congr (a b : ClientCaches) (msg : Storage)
    (hok : (check_result_state_static msg CMD_SIMSTEP false).1 = .ok ()) :
    SubsAgree (simulation_step_process a msg) (simulation_step_process b msg) := by
  unfold simulation_step_process
  rcases hcr : check_result_state_static msg CMD_SIMSTEP false with ⟨o, s1⟩
  rw [hcr] at hok
  simp only at hok
  subst hok
  simp only [andThenSt_ok]
  refine andThenSt_congr _ _ _ _ _ rfl fun num_subs s2 => ?_
  exact stepLoop_congr _ _ _ _ rfl

/-- C4 counterexample: the claim as stated is false.  A first step-advance
payload carrying one context-subscription response (routing id `0x94 + 0x50 =
0xe4`, domain Vehicle, anchor `"a"`, 0 objects) followed by a second payload
carrying zero subscription responses leaves the Vehicle
`context_subscription_results` still holding the anchor from the first
payload — it does not equal the state obtained from the second payload alone,
because `simulation_step` never clears the context caches. -/
theorem c4_counterexample :
    ¬((simulation_step_process
          (simulation_step_process emptyCaches
            (Storage.from_bytes ([7, 2, 0, 0, 0, 0, 0] ++ [0, 0, 0, 1] ++ [1, 0x94] ++
              [0, 0, 0, 1, 97] ++ [0, 0] ++ [0, 0, 0, 0]))).2.1
          (Storage.from_bytes
            ([7, 2, 0, 0, 0, 0, 0] ++ [0, 0, 0, 0]))).2.1.context_subscription_results
        DomainId.Vehicle =
      (simulation_step_process emptyCaches
        (Storage.from_bytes
          ([7, 2, 0, 0, 0, 0, 0] ++ [0, 0, 0, 0]))).2.1.context_subscription_results
        DomainId.Vehicle) := by
  decide

/-- C4 (amended): running the step-advance parser on a first payload and then
on a second payload whose status validation succeeds leaves every domain's
variable `subscription_results` exactly reflecting only the second payload
(equal to processing the second payload from a fresh client); the
`ContextSubscriptionResults` caches are NOT cleared by the source and may
retain entries from earlier payloads. -/
theorem c4_amended (st : ClientCaches) (msg1 msg2 : Storage) (d : DomainId)
    (hok : (check_result_state_static msg2 CMD_SIMSTEP false).1 = .ok ()) :
    (simulation_step_process (simulation_step_process st msg1).2.1
        msg2).2.1.subscription_results d =
      (simulation_step_process emptyCaches msg2).2.1.subscription_results d := by
  have h := simulation_step_subs_congr
    ((simulation_step_process st msg1).2.1) emptyCaches msg2 hok
  exact congrFun h.2.1 d

/-- Witness for C4's amended theorem on the counterexample payloads and the
Vehicle domain. -/
theorem c4_amended_witness :
    (check_result_state_static
      (Storage.from_bytes ([7, 2, 0, 0, 0, 0, 0] ++ [0, 0, 0, 0]))
      CMD_SIMSTEP false).1 = .ok () ∧
    (simulation_step_process
        (simulation_step_process emptyCaches
          (Storage.from_bytes ([7, 2, 0, 0, 0, 0, 0] ++ [0, 0, 0, 1] ++ [1, 0x94] ++
            [0, 0, 0, 1, 97] ++ [0, 0] ++ [0, 0, 0, 0]))).2.1
        (Storage.from_bytes
          ([7, 2, 0, 0, 0, 0, 0] ++ [0, 0, 0, 0]))).2.1.subscription_results
      DomainId.Vehicle =
    (simulation_step_process emptyCaches
      (Storage.from_bytes
        ([7, 2, 0, 0, 0, 0, 0] ++ [0, 0, 0, 0]))).2.1.subscription_results
      DomainId.Vehicle :=
  ⟨by decide,
   c4_amended emptyCaches
    (Storage.from_bytes ([7, 2, 0, 0, 0, 0, 0] ++ [0, 0, 0, 1] ++ [1, 0x94] ++
      [0, 0, 0, 1, 97] ++ [0, 0] ++ [0, 0, 0, 0]))
    (Storage.from_bytes ([7, 2, 0, 0, 0, 0, 0] ++ [0, 0, 0, 0]))
    DomainId.Vehicle (by decide)⟩

end TraciRs
